import Mathlib

/-!
Verification of the double-entry ledger core of the Booklet accounting
platform.  The Python source (app/crud/*.py) is shallowly embedded:
monetary amounts are rationals, dates are explicit year/month/day
triples compared lexicographically, and every database lookup that a
crud function performs (account rows found by name, the next document
number, freshly flushed primary keys) is passed in as a parameter.
Fallible functions return `Except String`, mirroring `raise ValueError`;
an `Except.error` result models "nothing was persisted", since every
caller wraps the crud call in a transaction that rolls back on error.
-/

namespace Booklet

/-- Account types, from `models.AccountType`. -/
inductive AccountType where
  | asset
  | liability
  | equity
  | revenue
  | expense
deriving DecidableEq, Repr

/-- Chart-of-accounts row, from `models.Account` (the fields the ledger
core reads). -/
structure Account where
  id : Nat
  businessId : Nat
  name : String
  type : AccountType
deriving DecidableEq, Repr

/-- A calendar date.  Python `datetime.date` comparison is lexicographic
on (year, month, day). -/
structure Date where
  year : Int
  month : Nat
  day : Nat
deriving DecidableEq, Repr

/-- Boolean date comparison `a <= b`, lexicographic as in Python. -/
def Date.ble (a b : Date) : Bool :=
  decide (a.year < b.year ∨ (a.year = b.year ∧
    (a.month < b.month ∨ (a.month = b.month ∧ a.day ≤ b.day))))

/-- `as_of_date.replace(month=1, day=1)` from `get_balance_sheet_data`. -/
def Date.startOfYear (d : Date) : Date :=
  { year := d.year, month := 1, day := 1 }

/-- Ledger posting row, from `models.LedgerEntry`.  `debit` and `credit`
default to 0 and `is_reconciled` to `False` exactly as the column
defaults do; `id` is the DB-assigned primary key. -/
structure LedgerEntry where
  id : Nat := 0
  txDate : Date
  description : String := ""
  debit : ℚ := 0
  credit : ℚ := 0
  accountId : Nat
  branchId : Nat
  customerId : Option Nat := none
  vendorId : Option Nat := none
  salesInvoiceId : Option Nat := none
  purchaseBillId : Option Nat := none
  payslipId : Option Nat := none
  journalVoucherId : Option Nat := none
  fundTransferId : Option Nat := none
  isReconciled : Bool := false
  reconciliationId : Option Nat := none
deriving DecidableEq, Repr

/-- Total debits of a list of postings. -/
def sumDebit (es : List LedgerEntry) : ℚ :=
  (es.map (fun e => e.debit)).sum

/-- Total credits of a list of postings. -/
def sumCredit (es : List LedgerEntry) : ℚ :=
  (es.map (fun e => e.credit)).sum

/-- One input line of a manual journal voucher: the dict
`{'account_id': ..., 'debit': ..., 'credit': ...}` consumed by
`create_journal_voucher`, with missing amounts already defaulted to 0
(`float(e.get('debit', 0) or 0)`). -/
structure JVLine where
  accountId : Nat
  debit : ℚ := 0
  credit : ℚ := 0
deriving DecidableEq, Repr

/-- Parent voucher row, from `models.JournalVoucher`. -/
structure JournalVoucher where
  id : Nat
  voucherNumber : String
  transactionDate : Date
  description : String
  businessId : Nat
  branchId : Nat
deriving DecidableEq, Repr

/-- `crud.journal.create_journal_voucher`.  The generated voucher number
and the flushed voucher id are parameters (`get_next_journal_voucher_number`
and `db.flush`).  The balance gate is the source's
`if not (0.009 > total_debits - total_credits > -0.009): raise`; a line
is persisted only when `debit > 0 or credit > 0`. -/
def create_journal_voucher (voucherId : Nat) (voucherNumber : String)
    (businessId branchId : Nat) (transactionDate : Date)
    (description : String) (entries : List JVLine) :
    Except String (JournalVoucher × List LedgerEntry) :=
  let totalDebits : ℚ := (entries.map (fun e => e.debit)).sum
  let totalCredits : ℚ := (entries.map (fun e => e.credit)).sum
  if totalDebits - totalCredits < 9/1000 ∧ -(9/1000) < totalDebits - totalCredits then
    let voucher : JournalVoucher :=
      { id := voucherId, voucherNumber := voucherNumber,
        transactionDate := transactionDate, description := description,
        businessId := businessId, branchId := branchId }
    let ledger : List LedgerEntry :=
      (entries.filter (fun e => decide (0 < e.debit) || decide (0 < e.credit))).map
        (fun e =>
          { txDate := transactionDate, description := description,
            debit := e.debit, credit := e.credit,
            accountId := e.accountId, branchId := branchId,
            journalVoucherId := some voucherId })
    Except.ok (voucher, ledger)
  else
    Except.error ("Journal entry is not balanced.")

/-- Payslip row, from `models.Payslip`, as populated by
`process_payroll_for_employee` (`math.ceil` produces integers). -/
structure Payslip where
  id : Nat
  employeeId : Nat
  payPeriodStart : Date
  payPeriodEnd : Date
  payDate : Date
  grossPay : ℚ
  payeDeduction : ℤ
  pensionEmployeeDeduction : ℤ
  pensionEmployerContribution : ℤ
  totalDeductions : ℚ
  netPay : ℚ
deriving DecidableEq, Repr

/-- `crud.employee.process_payroll_for_employee`, lines 135-190: the pay
computation and the posting group.  The employee's branch, payroll
config fields (`gross_salary` and the three nullable rates, whose
`x or 0.0` defaulting is `Option.getD 0`), the four core payroll account
ids and the flushed payslip id are parameters.  Additions and deductions
are the `item['amount']` lists.  Period-detail suffixes of the posting
descriptions are omitted. -/
def process_payroll_for_employee
    (employeeId branchId : Nat) (employeeName : String) (today : Date)
    (payPeriodStart payPeriodEnd : Date)
    (salaryExpenseAcct payrollLiabilitiesAcct payePayableAcct pensionPayableAcct : Nat)
    (payslipId : Nat)
    (grossSalary : ℚ) (payeRate pensionEmployeeRate pensionEmployerRate : Option ℚ)
    (additions deductions : List ℚ) : Payslip × List LedgerEntry :=
  let grossPay := grossSalary
  let totalAdditions := additions.sum
  let taxableIncome := grossPay + totalAdditions
  let payeDeduction : ℤ := Int.ceil (taxableIncome * (payeRate.getD 0))
  let pensionEmployeeDeduction : ℤ := Int.ceil (grossPay * (pensionEmployeeRate.getD 0))
  let pensionEmployerContribution : ℤ := Int.ceil (grossPay * (pensionEmployerRate.getD 0))
  let otherDeductions := deductions.sum
  let totalDeductions : ℚ :=
    (payeDeduction : ℚ) + (pensionEmployeeDeduction : ℚ) + otherDeductions
  let netPay := taxableIncome - totalDeductions
  let payslip : Payslip :=
    { id := payslipId, employeeId := employeeId,
      payPeriodStart := payPeriodStart, payPeriodEnd := payPeriodEnd,
      payDate := today, grossPay := grossPay,
      payeDeduction := payeDeduction,
      pensionEmployeeDeduction := pensionEmployeeDeduction,
      pensionEmployerContribution := pensionEmployerContribution,
      totalDeductions := totalDeductions, netPay := netPay }
  let totalPayrollExpense := grossPay + totalAdditions + (pensionEmployerContribution : ℚ)
  let base : List LedgerEntry :=
    [ { txDate := today, description := "Payroll for " ++ employeeName,
        debit := totalPayrollExpense, accountId := salaryExpenseAcct,
        payslipId := some payslipId, branchId := branchId },
      { txDate := today, description := "Net pay for " ++ employeeName,
        credit := netPay, accountId := payrollLiabilitiesAcct,
        payslipId := some payslipId, branchId := branchId } ]
  let withPaye : List LedgerEntry :=
    if 0 < payeDeduction then
      base ++ [ { txDate := today, description := "PAYE for " ++ employeeName,
                  credit := (payeDeduction : ℚ), accountId := payePayableAcct,
                  payslipId := some payslipId, branchId := branchId } ]
    else base
  let totalPensionContribution := pensionEmployeeDeduction + pensionEmployerContribution
  let entries : List LedgerEntry :=
    if 0 < totalPensionContribution then
      withPaye ++ [ { txDate := today, description := "Pension for " ++ employeeName,
                      credit := (totalPensionContribution : ℚ), accountId := pensionPayableAcct,
                      payslipId := some payslipId, branchId := branchId } ]
    else withPaye
  (payslip, entries)

/-- Tenant row, from `models.Business` (the VAT fields the workflows read). -/
structure Business where
  id : Nat
  isVatRegistered : Bool
  vatRate : ℚ
deriving DecidableEq, Repr

/-- Customer row fields read by `create_sales_invoice`. -/
structure Customer where
  id : Nat
  branchId : Nat
  name : String
deriving DecidableEq, Repr

/-- Product row fields read by the sales workflow, from `models.Product`.
Stock is stored as an integer column but all in-session arithmetic mixes
it with float quantities, so it is modelled as a rational. -/
structure Product where
  id : Nat
  branchId : Nat
  name : String
  purchasePrice : ℚ
  stockQuantity : ℚ
deriving DecidableEq, Repr

/-- One invoice line from `schemas.SalesInvoiceItemCreate`. -/
structure InvoiceItem where
  productId : Nat
  quantity : ℚ
  price : ℚ
deriving DecidableEq, Repr

/-- Sales invoice row, from `models.SalesInvoice`; `paid_amount` defaults
to 0 and `status` to "Unpaid". -/
structure SalesInvoice where
  id : Nat
  invoiceNumber : String
  customerId : Nat
  invoiceDate : Date
  dueDate : Date
  subTotal : ℚ
  vatAmount : ℚ
  totalAmount : ℚ
  paidAmount : ℚ := 0
  status : String := "Unpaid"
  branchId : Nat
  businessId : Nat
deriving DecidableEq, Repr

/-- Purchase bill row fields read by `record_payment_for_bill`. -/
structure PurchaseBill where
  id : Nat
  billNumber : String
  vendorId : Nat
  totalAmount : ℚ
  paidAmount : ℚ := 0
  status : String := "Unpaid"
  branchId : Nat
  businessId : Nat
deriving DecidableEq, Repr

/-- The stock-validation and cost-accumulation loop of
`create_sales_invoice` (lines 82-89): each line's product must resolve
and belong to the branch, its quantity must not exceed the product's
current stock, and `total_cost += purchase_price * quantity`.  The
numeric detail of the source's error messages is omitted. -/
def computeTotalCost (products : List Product) (branchId : Nat) :
    List InvoiceItem → Except String ℚ
  | [] => Except.ok 0
  | i :: rest =>
    match products.find? (fun p => p.id == i.productId) with
    | none => Except.error ("Product not found in this branch.")
    | some p =>
      if p.branchId ≠ branchId then
        Except.error ("Product not found in this branch.")
      else if p.stockQuantity < i.quantity then
        Except.error ("Insufficient stock for " ++ p.name)
      else
        match computeTotalCost products branchId rest with
        | Except.error m => Except.error m
        | Except.ok c => Except.ok (p.purchasePrice * i.quantity + c)

/-- The per-line stock decrement loop of `create_sales_invoice`
(lines 105-114): for each invoice item the matching product row's stock
is reduced by the sold quantity. -/
def decrementStocks (products : List Product) (items : List InvoiceItem) :
    List Product :=
  items.foldl
    (fun ps i =>
      ps.map (fun p =>
        if p.id == i.productId then
          { p with stockQuantity := p.stockQuantity - i.quantity }
        else p))
    products

/-- One invoice line's cost contribution, `purchase_price × quantity`
for the product the line resolves to (0 when unresolvable — the success
path of the workflow rules that out). -/
def productCost (products : List Product) (i : InvoiceItem) : ℚ :=
  match products.find? (fun p => p.id == i.productId) with
  | some p => p.purchasePrice * i.quantity
  | none => 0

/-- `crud.sales.create_sales_invoice`.  The business and customer lookup
results, the five account lookups by name (AR, Sales Revenue, COGS,
Inventory, VAT Payable), the branch's product table, the generated
invoice number and the flushed invoice id are parameters.  Returns the
invoice, its posting group and the product table with stock decremented. -/
def create_sales_invoice
    (business : Option Business) (customer : Option Customer)
    (arAcct revenueAcct cogsAcct inventoryAcct vatAcct : Option Nat)
    (products : List Product)
    (invoiceId : Nat) (invoiceNumber : String)
    (businessId branchId : Nat)
    (invoiceDate dueDate : Date)
    (items : List InvoiceItem) :
    Except String (SalesInvoice × List LedgerEntry × List Product) :=
  match business with
  | none => Except.error ("Business not found.")
  | some business =>
    match customer with
    | none => Except.error ("Customer not found.")
    | some customer =>
      if customer.branchId ≠ branchId then
        Except.error ("Customer does not belong to the selected branch.")
      else
        match arAcct, revenueAcct, cogsAcct, inventoryAcct with
        | some arId, some revenueId, some cogsId, some inventoryId =>
          if business.isVatRegistered ∧ vatAcct = none then
            Except.error ("VAT Payable account not found.")
          else
            let subTotal : ℚ := (items.map (fun i => i.quantity * i.price)).sum
            let vatAmount : ℚ :=
              if business.isVatRegistered then subTotal * business.vatRate else 0
            let totalAmount := subTotal + vatAmount
            match computeTotalCost products branchId items with
            | Except.error m => Except.error m
            | Except.ok totalCost =>
              let invoice : SalesInvoice :=
                { id := invoiceId, invoiceNumber := invoiceNumber,
                  customerId := customer.id, invoiceDate := invoiceDate,
                  dueDate := dueDate, subTotal := subTotal,
                  vatAmount := vatAmount, totalAmount := totalAmount,
                  branchId := branchId, businessId := businessId }
              let saleDesc := "Sale on Invoice #" ++ invoiceNumber
              let cogsDesc := "COGS for Invoice #" ++ invoiceNumber
              let arEntry : LedgerEntry :=
                { accountId := arId, txDate := invoiceDate, debit := totalAmount,
                  description := saleDesc, customerId := some customer.id,
                  salesInvoiceId := some invoiceId, branchId := branchId }
              let revenueEntry : LedgerEntry :=
                { accountId := revenueId, txDate := invoiceDate, credit := subTotal,
                  description := saleDesc, customerId := some customer.id,
                  salesInvoiceId := some invoiceId, branchId := branchId }
              let vatEntries : List LedgerEntry :=
                if business.isVatRegistered ∧ 0 < vatAmount then
                  [ { accountId := vatAcct.getD 0, txDate := invoiceDate,
                      credit := vatAmount, description := saleDesc,
                      customerId := some customer.id,
                      salesInvoiceId := some invoiceId, branchId := branchId } ]
                else []
              let cogsEntry : LedgerEntry :=
                { accountId := cogsId, txDate := invoiceDate, debit := totalCost,
                  description := cogsDesc, customerId := some customer.id,
                  salesInvoiceId := some invoiceId, branchId := branchId }
              let inventoryEntry : LedgerEntry :=
                { accountId := inventoryId, txDate := invoiceDate, credit := totalCost,
                  description := cogsDesc, customerId := some customer.id,
                  salesInvoiceId := some invoiceId, branchId := branchId }
              Except.ok
                (invoice,
                 [arEntry, revenueEntry] ++ vatEntries ++ [cogsEntry, inventoryEntry],
                 decrementStocks products items)
        | _, _, _, _ =>
          Except.error ("Core accounting accounts (AR, Revenue, COGS, Inventory) not found.")

/-- `crud.sales.record_payment_for_invoice`: bumps `paid_amount`,
recomputes the status against the 0.001 threshold and posts the AR
credit / payment-account debit pair.  The AR account lookup result is a
parameter. -/
def record_payment_for_invoice (arAcct : Option Nat) (invoice : SalesInvoice)
    (paymentDate : Date) (amountPaid : ℚ) (paymentAccountId : Nat) :
    Except String (SalesInvoice × List LedgerEntry) :=
  match arAcct with
  | none => Except.error ("Critical error: Accounts Receivable account not found.")
  | some arId =>
    let paid := invoice.paidAmount + amountPaid
    let status := if invoice.totalAmount - 1/1000 ≤ paid then "Paid" else "Partially Paid"
    let updated := { invoice with paidAmount := paid, status := status }
    Except.ok
      (updated,
       [ { accountId := arId, txDate := paymentDate, credit := amountPaid,
           description := "Payment for Invoice #" ++ invoice.invoiceNumber,
           customerId := some invoice.customerId,
           salesInvoiceId := some invoice.id, branchId := invoice.branchId },
         { accountId := paymentAccountId, txDate := paymentDate, debit := amountPaid,
           description := "Payment received for Invoice #" ++ invoice.invoiceNumber,
           customerId := some invoice.customerId,
           salesInvoiceId := some invoice.id, branchId := invoice.branchId } ])

/-- `crud.purchase.record_payment_for_bill`: the mirror of the invoice
payment, debiting AP and crediting the payment account. -/
def record_payment_for_bill (apAcct : Option Nat) (bill : PurchaseBill)
    (paymentDate : Date) (amountPaid : ℚ) (paymentAccountId : Nat) :
    Except String (PurchaseBill × List LedgerEntry) :=
  match apAcct with
  | none => Except.error ("Critical error: Accounts Payable account not found.")
  | some apId =>
    let paid := bill.paidAmount + amountPaid
    let status := if bill.totalAmount - 1/1000 ≤ paid then "Paid" else "Partially Paid"
    let updated := { bill with paidAmount := paid, status := status }
    Except.ok
      (updated,
       [ { accountId := apId, txDate := paymentDate, debit := amountPaid,
           description := "Payment for Bill #" ++ bill.billNumber,
           vendorId := some bill.vendorId,
           purchaseBillId := some bill.id, branchId := bill.branchId },
         { accountId := paymentAccountId, txDate := paymentDate, credit := amountPaid,
           description := "Payment for Bill #" ++ bill.billNumber,
           vendorId := some bill.vendorId,
           purchaseBillId := some bill.id, branchId := bill.branchId } ])

/-- `crud.ledger.create_vat_payment_entry`: posts Debit VAT-Payable
(output total) / Credit VAT-Receivable (input total) / Credit payment
account (amount paid), all three amounts caller-supplied.  The two VAT
account lookup results, voucher number and flushed voucher id are
parameters. -/
def create_vat_payment_entry
    (outputVatAcct inputVatAcct : Option Nat)
    (voucherId : Nat) (voucherNumber : String)
    (businessId branchId : Nat) (paymentDate : Date)
    (amountPaid : ℚ) (paymentAccountId : Nat)
    (outputVatTotal inputVatTotal : ℚ) :
    Except String (JournalVoucher × List LedgerEntry) :=
  match outputVatAcct, inputVatAcct with
  | some outputId, some inputId =>
    let description := "VAT payment"
    let voucher : JournalVoucher :=
      { id := voucherId, voucherNumber := voucherNumber,
        transactionDate := paymentDate, description := description,
        businessId := businessId, branchId := branchId }
    Except.ok
      (voucher,
       [ { txDate := paymentDate, description := description,
           debit := outputVatTotal, accountId := outputId,
           branchId := branchId, journalVoucherId := some voucherId },
         { txDate := paymentDate, description := description,
           credit := inputVatTotal, accountId := inputId,
           branchId := branchId, journalVoucherId := some voucherId },
         { txDate := paymentDate, description := description,
           credit := amountPaid, accountId := paymentAccountId,
           branchId := branchId, journalVoucherId := some voucherId } ])
  | _, _ =>
    Except.error ("VAT accounts are not configured for this business.")

/-- Sample tenant for the sales-invoice scenario: VAT-registered at a
10% rate. -/
def sampleBusiness : Business := ⟨1, true, 1/10⟩

/-- Sample customer of branch 1. -/
def sampleCustomer : Customer := ⟨5, 1, "Acme"⟩

/-- Sample product: purchase price 60, 20 units in stock, branch 1. -/
def sampleProduct : Product := ⟨100, 1, "Widget", 60, 20⟩

/-- Sample invoice lines: 10 units of the sample product at price 100. -/
def sampleItems : List InvoiceItem := [⟨100, 10, 100⟩]

/-- Sample chart of accounts for the balance-sheet equation instance. -/
def sampleBSAccounts : List Account :=
  [ ⟨1, 1, "Accounts Receivable", AccountType.asset⟩,
    ⟨2, 1, "Sales Revenue", AccountType.revenue⟩ ]

/-- Sample balanced posting pair dated inside the as-of year, for the
balance-sheet equation instance. -/
def sampleBSEntries : List LedgerEntry :=
  [ { txDate := ⟨2025, 1, 10⟩, debit := 100, accountId := 1, branchId := 1 },
    { txDate := ⟨2025, 1, 10⟩, credit := 100, accountId := 2, branchId := 1 } ]

/-- Whether a crud call succeeded (no `ValueError` was raised). -/
def isSuccess {α : Type} : Except String α → Bool
  | Except.ok _ => true
  | Except.error _ => false

/-- The reports' optional branch filter.  The source guards with
`if branch_id:`, so both `None` and the falsy id 0 leave the query
unfiltered. -/
def branchOk (bf : Option Nat) (e : LedgerEntry) : Bool :=
  match bf with
  | none => true
  | some b => if b = 0 then true else e.branchId == b

/-- `e.transaction_date <= as_of_date`. -/
def upTo (asOf : Date) (e : LedgerEntry) : Bool :=
  Date.ble e.txDate asOf

/-- `transaction_date.between(start_date, end_date)` (inclusive). -/
def inRange (startD endD : Date) (e : LedgerEntry) : Bool :=
  Date.ble startD e.txDate && Date.ble e.txDate endD

/-- The `func.sum(LedgerEntry.debit)` query filtered by account, date
cutoff and optional branch, shared by the trial balance and the balance
sheet (`scalar() or 0.0` makes an empty sum 0). -/
def accountDebitSum (entries : List LedgerEntry) (accId : Nat) (asOf : Date)
    (bf : Option Nat) : ℚ :=
  sumDebit (entries.filter (fun e => e.accountId == accId && upTo asOf e && branchOk bf e))

/-- The matching `func.sum(LedgerEntry.credit)` query. -/
def accountCreditSum (entries : List LedgerEntry) (accId : Nat) (asOf : Date)
    (bf : Option Nat) : ℚ :=
  sumCredit (entries.filter (fun e => e.accountId == accId && upTo asOf e && branchOk bf e))

/-- One line of the trial balance report. -/
structure TBLine where
  accountName : String
  debit : ℚ
  credit : ℚ
deriving DecidableEq, Repr

/-- One account-type group of the trial balance report. -/
structure TBSection where
  lines : List TBLine := []
  totalDebit : ℚ := 0
  totalCredit : ℚ := 0
deriving DecidableEq, Repr

/-- The `report_data` dict built by `get_trial_balance_data`. -/
structure TrialBalanceReport where
  asset : TBSection := {}
  liability : TBSection := {}
  equity : TBSection := {}
  revenue : TBSection := {}
  expense : TBSection := {}
  grandTotalDebit : ℚ := 0
  grandTotalCredit : ℚ := 0
deriving DecidableEq, Repr

/-- Appending one line to its account-type group and to the grand
totals, as the loop body of `get_trial_balance_data` does. -/
def TrialBalanceReport.addLine (r : TrialBalanceReport) (t : AccountType)
    (line : TBLine) : TrialBalanceReport :=
  let r :=
    { r with grandTotalDebit := r.grandTotalDebit + line.debit,
             grandTotalCredit := r.grandTotalCredit + line.credit }
  let add (s : TBSection) : TBSection :=
    { lines := s.lines ++ [line],
      totalDebit := s.totalDebit + line.debit,
      totalCredit := s.totalCredit + line.credit }
  match t with
  | AccountType.asset => { r with asset := add r.asset }
  | AccountType.liability => { r with liability := add r.liability }
  | AccountType.equity => { r with equity := add r.equity }
  | AccountType.revenue => { r with revenue := add r.revenue }
  | AccountType.expense => { r with expense := add r.expense }

/-- The loop body of `get_trial_balance_data` for one account: balance =
debits − credits up to the date; a zero balance is skipped; otherwise
the balance is split into the debit/credit columns per the source's two
branches (including the `else balance` arm of the
Liability/Equity/Revenue branch). -/
def tbStep (entries : List LedgerEntry) (asOf : Date) (bf : Option Nat)
    (report : TrialBalanceReport) (acc : Account) : TrialBalanceReport :=
  let debitSum := accountDebitSum entries acc.id asOf bf
  let creditSum := accountCreditSum entries acc.id asOf bf
  let balance := debitSum - creditSum
  if balance = 0 then report
  else
    let debitBalance : ℚ :=
      if acc.type = AccountType.asset ∨ acc.type = AccountType.expense then
        if 0 < balance then balance else 0
      else
        if 0 < balance then balance else 0
    let creditBalance : ℚ :=
      if acc.type = AccountType.asset ∨ acc.type = AccountType.expense then
        if balance < 0 then -balance else 0
      else
        if balance < 0 then -balance else balance
    report.addLine acc.type
      { accountName := acc.name, debit := debitBalance, credit := creditBalance }

/-- `crud.reports.get_trial_balance_data`: the account loop, starting
from the empty report.  The `accounts` parameter is the tenant's chart
of accounts. -/
def get_trial_balance_data (accounts : List Account) (entries : List LedgerEntry)
    (asOf : Date) (bf : Option Nat) : TrialBalanceReport :=
  accounts.foldl (tbStep entries asOf bf) {}

/-- The per-account P&L aggregate of `get_profit_and_loss_data`:
`sum(credit − debit)` for revenue accounts, `sum(debit − credit)` for
expense accounts, over the date range and optional branch. -/
def plAccountBalance (entries : List LedgerEntry) (acc : Account)
    (startD endD : Date) (bf : Option Nat) : ℚ :=
  let es := entries.filter
    (fun e => e.accountId == acc.id && inRange startD endD e && branchOk bf e)
  if acc.type = AccountType.revenue then
    (es.map (fun e => e.credit - e.debit)).sum
  else
    (es.map (fun e => e.debit - e.credit)).sum

/-- The dict returned by `get_profit_and_loss_data`. -/
structure PLData where
  revenueTotals : List (String × ℚ)
  totalRevenue : ℚ
  cogs : ℚ
  grossProfit : ℚ
  operatingExpenses : List (String × ℚ)
  totalOperatingExpenses : ℚ
  netProfit : ℚ
deriving DecidableEq, Repr

/-- `crud.ledger.get_profit_and_loss_data`.  The per-account totals dict
(keyed by account name, unique per tenant) is modelled as an association
list; `expense_totals.pop("Cost of Goods Sold", 0.0)` becomes the filter
split on that name. -/
def get_profit_and_loss_data (accounts : List Account) (entries : List LedgerEntry)
    (startD endD : Date) (bf : Option Nat) : PLData :=
  let revenueAccounts := accounts.filter (fun a => a.type = AccountType.revenue)
  let expenseAccounts := accounts.filter (fun a => a.type = AccountType.expense)
  let revenueTotals := revenueAccounts.map
    (fun a => (a.name, plAccountBalance entries a startD endD bf))
  let totalRevenue := (revenueTotals.map (fun p => p.2)).sum
  let expenseTotals := expenseAccounts.map
    (fun a => (a.name, plAccountBalance entries a startD endD bf))
  let cogs := ((expenseTotals.filter (fun p => p.1 == "Cost of Goods Sold")).map
    (fun p => p.2)).sum
  let operatingExpenses := expenseTotals.filter (fun p => p.1 != "Cost of Goods Sold")
  let grossProfit := totalRevenue - cogs
  let totalOperatingExpenses := (operatingExpenses.map (fun p => p.2)).sum
  let netProfit := grossProfit - totalOperatingExpenses
  { revenueTotals := revenueTotals, totalRevenue := totalRevenue,
    cogs := cogs, grossProfit := grossProfit,
    operatingExpenses := operatingExpenses,
    totalOperatingExpenses := totalOperatingExpenses, netProfit := netProfit }

/-- The sign-adjusted per-account balance of `get_balance_sheet_data`:
debits − credits for Asset/Expense, credits − debits otherwise. -/
def bsAdjustedBalance (entries : List LedgerEntry) (acc : Account) (asOf : Date)
    (bf : Option Nat) : ℚ :=
  let debitSum := accountDebitSum entries acc.id asOf bf
  let creditSum := accountCreditSum entries acc.id asOf bf
  if acc.type = AccountType.asset ∨ acc.type = AccountType.expense then
    debitSum - creditSum
  else
    creditSum - debitSum

/-- The loop body of `get_account_balances` inside
`get_balance_sheet_data`: a zero balance is skipped, otherwise the
name-keyed balance is appended and added to the running total. -/
def bsStep (entries : List LedgerEntry) (asOf : Date) (bf : Option Nat)
    (st : List (String × ℚ) × ℚ) (acc : Account) : List (String × ℚ) × ℚ :=
  let balance := bsAdjustedBalance entries acc asOf bf
  if balance ≠ 0 then (st.1 ++ [(acc.name, balance)], st.2 + balance)
  else st

/-- The `get_account_balances` helper inside `get_balance_sheet_data`:
walks the accounts of one type, skips zero balances, and accumulates the
name-keyed balances and their total. -/
def bsTypeData (accounts : List Account) (entries : List LedgerEntry)
    (asOf : Date) (bf : Option Nat) (t : AccountType) :
    List (String × ℚ) × ℚ :=
  (accounts.filter (fun a => a.type = t)).foldl (bsStep entries asOf bf) ([], 0)

/-- The raw debit-minus-credit balance of one account up to a date —
the quantity both report queries aggregate per account. -/
def rawBalance (entries : List LedgerEntry) (acc : Account) (asOf : Date)
    (bf : Option Nat) : ℚ :=
  accountDebitSum entries acc.id asOf bf - accountCreditSum entries acc.id asOf bf

/-- The dict returned by `get_balance_sheet_data`. -/
structure BalanceSheetData where
  assets : List (String × ℚ)
  totalAssets : ℚ
  liabilities : List (String × ℚ)
  totalLiabilities : ℚ
  equity : List (String × ℚ)
  totalEquity : ℚ
  totalLiabilitiesAndEquity : ℚ
deriving DecidableEq, Repr

/-- `crud.ledger.get_balance_sheet_data`: A/L/E balances as of the date,
with equity augmented by a synthetic "Retained Earnings (Current
Period)" line equal to the net profit of a P&L re-run from January 1 of
the as-of year. -/
def get_balance_sheet_data (accounts : List Account) (entries : List LedgerEntry)
    (asOf : Date) (bf : Option Nat) : BalanceSheetData :=
  let pnl := get_profit_and_loss_data accounts entries (Date.startOfYear asOf) asOf bf
  let netProfitForPeriod := pnl.netProfit
  let assetData := bsTypeData accounts entries asOf bf AccountType.asset
  let liabilityData := bsTypeData accounts entries asOf bf AccountType.liability
  let equityData := bsTypeData accounts entries asOf bf AccountType.equity
  { assets := assetData.1, totalAssets := assetData.2,
    liabilities := liabilityData.1, totalLiabilities := liabilityData.2,
    equity := equityData.1 ++ [("Retained Earnings (Current Period)", netProfitForPeriod)],
    totalEquity := equityData.2 + netProfitForPeriod,
    totalLiabilitiesAndEquity := liabilityData.2 + (equityData.2 + netProfitForPeriod) }

/-- `crud.banking.get_unreconciled_transactions`: the ledger entries of
one account and branch whose `is_reconciled` flag is still false. -/
def get_unreconciled_transactions (entries : List LedgerEntry)
    (accountId branchId : Nat) : List LedgerEntry :=
  entries.filter
    (fun e => e.accountId == accountId && e.branchId == branchId && !e.isReconciled)

/-- The bulk update of `crud.banking.process_reconciliation`: every
entry whose id is in the cleared set gets `is_reconciled = True` and the
batch back-reference; nothing else is touched. -/
def process_reconciliation (entries : List LedgerEntry) (reconId : Nat)
    (clearedIds : List Nat) : List LedgerEntry :=
  entries.map
    (fun e =>
      if clearedIds.contains e.id then
        { e with isReconciled := true, reconciliationId := some reconId }
      else e)

/-- The operations of the ledger core that touch `ledger_entries` rows.
Every document workflow only inserts fresh rows (`db.add`, with
`is_reconciled` at its column default); the single update statement in
the whole core is the reconciliation bulk flag. -/
inductive CoreOp where
  | post (newEntries : List LedgerEntry)
  | reconcile (reconId : Nat) (clearedIds : List Nat)

/-- The effect of one core operation on the stored posting history. -/
def applyOp (entries : List LedgerEntry) : CoreOp → List LedgerEntry
  | CoreOp.post newEntries => entries ++ newEntries
  | CoreOp.reconcile reconId clearedIds =>
    process_reconciliation entries reconId clearedIds

/-- A sample reconciled posting, used for concrete instantiations of the
reconciliation properties. -/
def sampleReconciledEntry : LedgerEntry :=
  { txDate := ⟨2025, 1, 2⟩, debit := 50, accountId := 1, branchId := 1,
    isReconciled := true }

/-! Helper lemmas about list sums, shared by several proofs below. -/

theorem sum_map_add {α : Type} (l : List α) (f g : α → ℚ) :
    (l.map (fun x => f x + g x)).sum = (l.map f).sum + (l.map g).sum := by
  induction l with
  | nil => simp
  | cons a t ih => simp [ih]; ring

theorem sum_map_neg {α : Type} (l : List α) (f : α → ℚ) :
    (l.map (fun x => -f x)).sum = -(l.map f).sum := by
  induction l with
  | nil => simp
  | cons a t ih => simp [ih]; ring

theorem sum_map_sub {α : Type} (l : List α) (f g : α → ℚ) :
    (l.map (fun x => f x - g x)).sum = (l.map f).sum - (l.map g).sum := by
  induction l with
  | nil => simp
  | cons a t ih => simp [ih]; ring

theorem sum_filter_indicator {α : Type} (l : List α) (p : α → Bool) (f : α → ℚ) :
    ((l.filter p).map f).sum = (l.map (fun x => if p x then f x else 0)).sum := by
  induction l with
  | nil => simp
  | cons a t ih =>
    by_cases h : p a
    · simp [List.filter, h, ih]
    · simp [List.filter, h, ih]

theorem sum_filter_not_split {α : Type} (l : List α) (p : α → Bool) (f : α → ℚ) :
    ((l.filter p).map f).sum + ((l.filter (fun x => !p x)).map f).sum
      = (l.map f).sum := by
  induction l with
  | nil => simp
  | cons a t ih =>
    by_cases h : p a
    · simp [List.filter, h]
      rw [← ih]; ring
    · simp [List.filter, h]
      rw [← ih]; ring

/-- C1: the payroll posting group is NOT balanced when the employee has
"other deductions": the deduction reduces the net-pay credit but is
never posted anywhere, so the group's debits exceed its credits by the
full deduction amount.  Here: gross 1000, no rates, one deduction of
100 gives Debit Salary Expense 1000 against Credit Payroll Liabilities
900 — off by 100, far outside the 0.01 tolerance the claim asserts. -/
theorem C1_payroll_group_unbalanced :
    sumDebit (process_payroll_for_employee 7 1 "Ada" ⟨2025, 3, 31⟩ ⟨2025, 3, 1⟩
        ⟨2025, 3, 31⟩ 10 11 12 13 1 1000 none none none [] [100]).2
      - sumCredit (process_payroll_for_employee 7 1 "Ada" ⟨2025, 3, 31⟩ ⟨2025, 3, 1⟩
        ⟨2025, 3, 31⟩ 10 11 12 13 1 1000 none none none [] [100]).2 = 100 ∧
    ¬ |sumDebit (process_payroll_for_employee 7 1 "Ada" ⟨2025, 3, 31⟩ ⟨2025, 3, 1⟩
        ⟨2025, 3, 31⟩ 10 11 12 13 1 1000 none none none [] [100]).2
      - sumCredit (process_payroll_for_employee 7 1 "Ada" ⟨2025, 3, 31⟩ ⟨2025, 3, 1⟩
        ⟨2025, 3, 31⟩ 10 11 12 13 1 1000 none none none [] [100]).2| ≤ 1/100 := by
  have h : sumDebit (process_payroll_for_employee 7 1 "Ada" ⟨2025, 3, 31⟩ ⟨2025, 3, 1⟩
        ⟨2025, 3, 31⟩ 10 11 12 13 1 1000 none none none [] [100]).2
      - sumCredit (process_payroll_for_employee 7 1 "Ada" ⟨2025, 3, 31⟩ ⟨2025, 3, 1⟩
        ⟨2025, 3, 31⟩ 10 11 12 13 1 1000 none none none [] [100]).2 = 100 := by
    norm_num [process_payroll_for_employee, sumDebit, sumCredit]
  refine ⟨h, ?_⟩
  rw [h, abs_of_pos (by norm_num : (0:ℚ) < 100)]
  norm_num

/-- C2 counterexample: a line set whose debit/credit difference is
0.0095 — inside the claimed 0.01 tolerance — is nevertheless rejected
by `create_journal_voucher`, because the source's gate is 0.009. -/
theorem C2_tolerance_counterexample :
    |(([⟨1, 19/2000, 0⟩] : List JVLine).map (fun e => e.debit)).sum
      - (([⟨1, 19/2000, 0⟩] : List JVLine).map (fun e => e.credit)).sum| < 1/100 ∧
    create_journal_voucher 1 "JV-0001" 1 1 ⟨2025, 1, 1⟩ "Adjustment"
        [⟨1, 19/2000, 0⟩] = Except.error ("Journal entry is not balanced.") := by
  constructor
  · simp only [List.map_cons, List.map_nil, List.sum_cons, List.sum_nil, add_zero]
    rw [sub_zero, abs_of_pos (by norm_num : (0:ℚ) < 19/2000)]
    norm_num
  · simp only [create_journal_voucher, List.map_cons, List.map_nil, List.sum_cons,
      List.sum_nil, add_zero]
    exact if_neg (by norm_num)

/-- C2 (amended): the journal-voucher entry point accepts a line set iff
`|Σdebit − Σcredit| < 0.009` (the source's gate, not the claimed 0.01);
when the check fails it returns the unbalanced-entry error and nothing
is persisted. -/
theorem C2_journal_balance_gate (voucherId : Nat) (voucherNumber : String)
    (businessId branchId : Nat) (transactionDate : Date) (description : String)
    (entries : List JVLine) :
    (isSuccess (create_journal_voucher voucherId voucherNumber businessId branchId
        transactionDate description entries) = true ↔
      |(entries.map (fun e => e.debit)).sum - (entries.map (fun e => e.credit)).sum|
        < 9/1000) ∧
    (¬ |(entries.map (fun e => e.debit)).sum - (entries.map (fun e => e.credit)).sum|
        < 9/1000 →
      create_journal_voucher voucherId voucherNumber businessId branchId
          transactionDate description entries
        = Except.error ("Journal entry is not balanced.")) := by
  simp only [create_journal_voucher]
  constructor
  · by_cases h : ((entries.map (fun e => e.debit)).sum - (entries.map (fun e => e.credit)).sum < 9/1000
        ∧ -(9/1000) < (entries.map (fun e => e.debit)).sum - (entries.map (fun e => e.credit)).sum)
    · rw [if_pos h]
      exact iff_of_true rfl (abs_lt.mpr ⟨h.2, h.1⟩)
    · rw [if_neg h]
      refine iff_of_false (by simp [isSuccess]) ?_
      intro hab
      exact h ⟨(abs_lt.mp hab).2, (abs_lt.mp hab).1⟩
  · intro h
    exact if_neg (fun hc => h (abs_lt.mpr ⟨hc.2, hc.1⟩))

/-- C2 witness: a balanced two-line voucher (debit 5 / credit 5) is
accepted. -/
theorem C2_journal_balance_gate_witness :
    isSuccess (create_journal_voucher 1 "JV-0001" 1 1 ⟨2025, 1, 1⟩ "Adjustment"
        [⟨1, 5, 0⟩, ⟨2, 0, 5⟩]) = true :=
  (C2_journal_balance_gate 1 "JV-0001" 1 1 ⟨2025, 1, 1⟩ "Adjustment"
    [⟨1, 5, 0⟩, ⟨2, 0, 5⟩]).1.mpr (by norm_num [abs_lt])

/-- C8 counterexample: a journal voucher with an empty line list is NOT
rejected — the balance gate passes trivially (0 = 0) and a voucher with
zero ledger lines is created.  No empty-entry check exists anywhere in
the core. -/
theorem C8_empty_entry_counterexample :
    create_journal_voucher 1 "JV-0001" 1 1 ⟨2025, 1, 1⟩ "Opening" [] =
      Except.ok
        ({ id := 1, voucherNumber := "JV-0001", transactionDate := ⟨2025, 1, 1⟩,
           description := "Opening", businessId := 1, branchId := 1 }, []) := by
  simp only [create_journal_voucher, List.map_nil, List.sum_nil]
  rw [if_pos (by norm_num)]
  rfl

/-- C8 (amended): the journal entry point enforces no minimum number of
postings: an empty line list is accepted (creating a voucher with no
ledger entries), and a single line is rejected only by the 0.009
balance tolerance — with the unbalanced-entry error, never an
empty-entry error. -/
theorem C8_no_minimum_line_check (voucherId : Nat) (voucherNumber : String)
    (businessId branchId : Nat) (transactionDate : Date) (description : String) :
    create_journal_voucher voucherId voucherNumber businessId branchId
        transactionDate description [] =
      Except.ok
        ({ id := voucherId, voucherNumber := voucherNumber,
           transactionDate := transactionDate, description := description,
           businessId := businessId, branchId := branchId }, []) ∧
    (∀ l : JVLine, |l.debit - l.credit| < 9/1000 →
      isSuccess (create_journal_voucher voucherId voucherNumber businessId branchId
        transactionDate description [l]) = true) ∧
    (∀ l : JVLine, ¬ |l.debit - l.credit| < 9/1000 →
      create_journal_voucher voucherId voucherNumber businessId branchId
          transactionDate description [l]
        = Except.error ("Journal entry is not balanced.")) := by
  refine ⟨?_, ?_, ?_⟩
  · simp only [create_journal_voucher, List.map_nil, List.sum_nil]
    rw [if_pos (by norm_num)]
    rfl
  · intro l h
    rw [abs_lt] at h
    simp only [create_journal_voucher, List.map_cons, List.map_nil, List.sum_cons,
      List.sum_nil, add_zero]
    rw [if_pos ⟨h.2, h.1⟩]
    rfl
  · intro l h
    rw [abs_lt] at h
    simp only [create_journal_voucher, List.map_cons, List.map_nil, List.sum_cons,
      List.sum_nil, add_zero]
    exact if_neg (fun hc => h ⟨hc.2, hc.1⟩)

/-- C8 witness: the empty list is accepted, and the single unbalanced
line (debit 5, credit 0) is rejected with the unbalanced-entry error. -/
theorem C8_no_minimum_line_check_witness :
    (create_journal_voucher 1 "JV-0001" 1 1 ⟨2025, 1, 1⟩ "Opening" [] =
      Except.ok
        ({ id := 1, voucherNumber := "JV-0001", transactionDate := ⟨2025, 1, 1⟩,
           description := "Opening", businessId := 1, branchId := 1 }, [])) ∧
    ¬ |(5:ℚ) - 0| < 9/1000 ∧
    create_journal_voucher 1 "JV-0001" 1 1 ⟨2025, 1, 1⟩ "Opening" [⟨1, 5, 0⟩]
      = Except.error ("Journal entry is not balanced.") :=
  ⟨(C8_no_minimum_line_check 1 "JV-0001" 1 1 ⟨2025, 1, 1⟩ "Opening").1,
   by norm_num,
   (C8_no_minimum_line_check 1 "JV-0001" 1 1 ⟨2025, 1, 1⟩ "Opening").2.2
     ⟨1, 5, 0⟩ (by norm_num)⟩

/-- C3: the payroll computation.  With `paye = ceil(taxableIncome × rPaye)`,
`pensionEmployee = ceil(gross × rEmp)` and `pensionEmployer =
ceil(gross × rEmployer)` (the claim's rounding formulas, as hypotheses
naming the three ceilings), and both withholdings positive, the payslip
records `netPay = taxableIncome − paye − pensionEmployee −
otherDeductions` and the posting group is exactly Debit Salary
Expense(gross + additions + employerPension) / Credit Payroll
Liabilities(netPay) / Credit PAYE Payable(paye) / Credit Pension
Payable(employeeShare + employerShare). -/
theorem C3_payroll_computation
    (employeeId branchId : Nat) (employeeName : String)
    (today startD endD : Date)
    (salaryAcct liabAcct payeAcct pensionAcct payslipId : Nat)
    (g rPaye rEmp rEmployer : ℚ) (additions deductions : List ℚ)
    (paye pe per : ℤ)
    (hp : paye = Int.ceil ((g + additions.sum) * rPaye))
    (he : pe = Int.ceil (g * rEmp))
    (hr : per = Int.ceil (g * rEmployer))
    (hPaye : 0 < paye)
    (hPension : 0 < pe + per) :
    (process_payroll_for_employee employeeId branchId employeeName today startD endD
        salaryAcct liabAcct payeAcct pensionAcct payslipId g (some rPaye) (some rEmp)
        (some rEmployer) additions deductions).1.netPay
      = (g + additions.sum) - (paye : ℚ) - (pe : ℚ) - deductions.sum ∧
    process_payroll_for_employee employeeId branchId employeeName today startD endD
        salaryAcct liabAcct payeAcct pensionAcct payslipId g (some rPaye) (some rEmp)
        (some rEmployer) additions deductions
      = ({ id := payslipId, employeeId := employeeId, payPeriodStart := startD,
           payPeriodEnd := endD, payDate := today, grossPay := g,
           payeDeduction := paye, pensionEmployeeDeduction := pe,
           pensionEmployerContribution := per,
           totalDeductions := (paye : ℚ) + (pe : ℚ) + deductions.sum,
           netPay := g + additions.sum - ((paye : ℚ) + (pe : ℚ) + deductions.sum) },
         [ { txDate := today, description := "Payroll for " ++ employeeName,
             debit := g + additions.sum + (per : ℚ), accountId := salaryAcct,
             payslipId := some payslipId, branchId := branchId },
           { txDate := today, description := "Net pay for " ++ employeeName,
             credit := g + additions.sum - ((paye : ℚ) + (pe : ℚ) + deductions.sum),
             accountId := liabAcct, payslipId := some payslipId, branchId := branchId },
           { txDate := today, description := "PAYE for " ++ employeeName,
             credit := (paye : ℚ), accountId := payeAcct,
             payslipId := some payslipId, branchId := branchId },
           { txDate := today, description := "Pension for " ++ employeeName,
             credit := ((pe + per : ℤ) : ℚ), accountId := pensionAcct,
             payslipId := some payslipId, branchId := branchId } ]) := by
  subst hp he hr
  have hmain : process_payroll_for_employee employeeId branchId employeeName today startD endD
      salaryAcct liabAcct payeAcct pensionAcct payslipId g (some rPaye) (some rEmp)
      (some rEmployer) additions deductions
      = ({ id := payslipId, employeeId := employeeId, payPeriodStart := startD,
           payPeriodEnd := endD, payDate := today, grossPay := g,
           payeDeduction := Int.ceil ((g + additions.sum) * rPaye),
           pensionEmployeeDeduction := Int.ceil (g * rEmp),
           pensionEmployerContribution := Int.ceil (g * rEmployer),
           totalDeductions := (Int.ceil ((g + additions.sum) * rPaye) : ℚ)
             + (Int.ceil (g * rEmp) : ℚ) + deductions.sum,
           netPay := g + additions.sum - ((Int.ceil ((g + additions.sum) * rPaye) : ℚ)
             + (Int.ceil (g * rEmp) : ℚ) + deductions.sum) },
         [ { txDate := today, description := "Payroll for " ++ employeeName,
             debit := g + additions.sum + (Int.ceil (g * rEmployer) : ℚ),
             accountId := salaryAcct, payslipId := some payslipId, branchId := branchId },
           { txDate := today, description := "Net pay for " ++ employeeName,
             credit := g + additions.sum - ((Int.ceil ((g + additions.sum) * rPaye) : ℚ)
               + (Int.ceil (g * rEmp) : ℚ) + deductions.sum),
             accountId := liabAcct, payslipId := some payslipId, branchId := branchId },
           { txDate := today, description := "PAYE for " ++ employeeName,
             credit := (Int.ceil ((g + additions.sum) * rPaye) : ℚ), accountId := payeAcct,
             payslipId := some payslipId, branchId := branchId },
           { txDate := today, description := "Pension for " ++ employeeName,
             credit := ((Int.ceil (g * rEmp) + Int.ceil (g * rEmployer) : ℤ) : ℚ),
             accountId := pensionAcct, payslipId := some payslipId,
             branchId := branchId } ]) := by
    simp only [process_payroll_for_employee, Option.getD]
    rw [if_pos hPaye, if_pos hPension]
    rfl
  refine ⟨?_, hmain⟩
  rw [hmain]
  ring

/-- C3 witness: the claim's scenario — gross 1000, PAYE 10%, pension
5% + 5%, no additions or deductions — yields paye 100, employee pension
50, employer pension 50, net pay 850, and the posting group Debit
Salary Expense 1050 / Credit Payroll Liabilities 850 / Credit PAYE
Payable 100 / Credit Pension Payable 100. -/
theorem C3_payroll_computation_witness :
    (100 : ℤ) = Int.ceil (((1000 : ℚ) + ([] : List ℚ).sum) * (1/10)) ∧
    (50 : ℤ) = Int.ceil ((1000 : ℚ) * (1/20)) ∧
    (process_payroll_for_employee 7 1 "Ada" ⟨2025, 3, 31⟩ ⟨2025, 3, 1⟩ ⟨2025, 3, 31⟩
        10 11 12 13 1 1000 (some (1/10)) (some (1/20)) (some (1/20)) [] []).1.netPay
      = (1000 + ([] : List ℚ).sum) - ((100 : ℤ) : ℚ) - ((50 : ℤ) : ℚ) - ([] : List ℚ).sum ∧
    process_payroll_for_employee 7 1 "Ada" ⟨2025, 3, 31⟩ ⟨2025, 3, 1⟩ ⟨2025, 3, 31⟩
        10 11 12 13 1 1000 (some (1/10)) (some (1/20)) (some (1/20)) [] []
      = ({ id := 1, employeeId := 7, payPeriodStart := ⟨2025, 3, 1⟩,
           payPeriodEnd := ⟨2025, 3, 31⟩, payDate := ⟨2025, 3, 31⟩, grossPay := 1000,
           payeDeduction := 100, pensionEmployeeDeduction := 50,
           pensionEmployerContribution := 50,
           totalDeductions := ((100 : ℤ) : ℚ) + ((50 : ℤ) : ℚ) + ([] : List ℚ).sum,
           netPay := 1000 + ([] : List ℚ).sum
             - (((100 : ℤ) : ℚ) + ((50 : ℤ) : ℚ) + ([] : List ℚ).sum) },
         [ { txDate := ⟨2025, 3, 31⟩, description := "Payroll for " ++ "Ada",
             debit := 1000 + ([] : List ℚ).sum + ((50 : ℤ) : ℚ), accountId := 10,
             payslipId := some 1, branchId := 1 },
           { txDate := ⟨2025, 3, 31⟩, description := "Net pay for " ++ "Ada",
             credit := 1000 + ([] : List ℚ).sum
               - (((100 : ℤ) : ℚ) + ((50 : ℤ) : ℚ) + ([] : List ℚ).sum),
             accountId := 11, payslipId := some 1, branchId := 1 },
           { txDate := ⟨2025, 3, 31⟩, description := "PAYE for " ++ "Ada",
             credit := ((100 : ℤ) : ℚ), accountId := 12,
             payslipId := some 1, branchId := 1 },
           { txDate := ⟨2025, 3, 31⟩, description := "Pension for " ++ "Ada",
             credit := (((50 : ℤ) + (50 : ℤ) : ℤ) : ℚ), accountId := 13,
             payslipId := some 1, branchId := 1 } ]) := by
  have h1 : (100 : ℤ) = Int.ceil (((1000 : ℚ) + ([] : List ℚ).sum) * (1/10)) := by
    rw [show ((1000 : ℚ) + ([] : List ℚ).sum) * (1/10) = ((100 : ℤ) : ℚ) by norm_num]
    rw [Int.ceil_intCast]
  have h2 : (50 : ℤ) = Int.ceil ((1000 : ℚ) * (1/20)) := by
    rw [show ((1000 : ℚ) * (1/20)) = ((50 : ℤ) : ℚ) by norm_num]
    rw [Int.ceil_intCast]
  have h := C3_payroll_computation 7 1 "Ada" ⟨2025, 3, 31⟩ ⟨2025, 3, 1⟩ ⟨2025, 3, 31⟩
    10 11 12 13 1 1000 (1/10) (1/20) (1/20) [] [] 100 50 50 h1 h2 h2
    (by norm_num) (by norm_num)
  exact ⟨h1, h2, h.1, h.2⟩

/-- C5: recording a payment of `a` against an invoice (or a bill) adds
`a` to the document's paid amount; the new status is "Paid" when the
new paid amount is at least `total − 0.001` and "Partially Paid"
otherwise (in particular whenever the paid amount is positive but below
the threshold). -/
theorem C5_payment_status (arId apId : Nat) (invoice : SalesInvoice)
    (bill : PurchaseBill) (paymentDate : Date) (a : ℚ) (payAcct : Nat) :
    (∀ inv2 es, record_payment_for_invoice (some arId) invoice paymentDate a payAcct
        = Except.ok (inv2, es) →
      inv2.paidAmount = invoice.paidAmount + a ∧
      (invoice.totalAmount - 1/1000 ≤ inv2.paidAmount → inv2.status = "Paid") ∧
      (inv2.paidAmount < invoice.totalAmount - 1/1000 → 0 < inv2.paidAmount →
        inv2.status = "Partially Paid")) ∧
    (∀ b2 es, record_payment_for_bill (some apId) bill paymentDate a payAcct
        = Except.ok (b2, es) →
      b2.paidAmount = bill.paidAmount + a ∧
      (bill.totalAmount - 1/1000 ≤ b2.paidAmount → b2.status = "Paid") ∧
      (b2.paidAmount < bill.totalAmount - 1/1000 → 0 < b2.paidAmount →
        b2.status = "Partially Paid")) := by
  constructor
  · intro inv2 es h
    simp only [record_payment_for_invoice, Except.ok.injEq, Prod.mk.injEq] at h
    obtain ⟨h1, h2⟩ := h
    subst h1
    refine ⟨rfl, ?_, ?_⟩
    · intro hle
      simp only at hle ⊢
      rw [if_pos hle]
    · intro hlt hpos
      simp only at hlt ⊢
      rw [if_neg (not_le.mpr hlt)]
  · intro b2 es h
    simp only [record_payment_for_bill, Except.ok.injEq, Prod.mk.injEq] at h
    obtain ⟨h1, h2⟩ := h
    subst h1
    refine ⟨rfl, ?_, ?_⟩
    · intro hle
      simp only at hle ⊢
      rw [if_pos hle]
    · intro hlt hpos
      simp only at hlt ⊢
      rw [if_neg (not_le.mpr hlt)]

/-- C5 witness: a payment of 400 against a 1000 invoice gives paid
amount 400 and status "Partially Paid"; a subsequent payment of 600
gives paid amount 1000 and status "Paid" (and the mirror bill payment
behaves the same). -/
theorem C5_payment_status_witness :
    (∃ inv1 es1, record_payment_for_invoice (some 3)
        { id := 1, invoiceNumber := "INV-0001", customerId := 5,
          invoiceDate := ⟨2025, 1, 1⟩, dueDate := ⟨2025, 1, 31⟩, subTotal := 1000,
          vatAmount := 0, totalAmount := 1000, branchId := 1, businessId := 1 }
        ⟨2025, 1, 10⟩ 400 9 = Except.ok (inv1, es1) ∧
      inv1.paidAmount = 400 ∧ inv1.status = "Partially Paid" ∧
      ∃ inv2 es2, record_payment_for_invoice (some 3) inv1 ⟨2025, 1, 20⟩ 600 9
          = Except.ok (inv2, es2) ∧
        inv2.paidAmount = 1000 ∧ inv2.status = "Paid") ∧
    (∃ b1 es1, record_payment_for_bill (some 4)
        { id := 1, billNumber := "BILL-0001", vendorId := 6, totalAmount := 1000,
          branchId := 1, businessId := 1 }
        ⟨2025, 1, 10⟩ 400 9 = Except.ok (b1, es1) ∧
      b1.paidAmount = 400 ∧ b1.status = "Partially Paid") := by
  constructor
  · obtain ⟨inv1, es1, hr1⟩ :
        ∃ inv1 es1, record_payment_for_invoice (some 3)
          { id := 1, invoiceNumber := "INV-0001", customerId := 5,
            invoiceDate := ⟨2025, 1, 1⟩, dueDate := ⟨2025, 1, 31⟩, subTotal := 1000,
            vatAmount := 0, totalAmount := 1000, branchId := 1, businessId := 1 }
          ⟨2025, 1, 10⟩ 400 9 = Except.ok (inv1, es1) :=
      ⟨_, _, rfl⟩
    have h1 := (C5_payment_status 3 4
      { id := 1, invoiceNumber := "INV-0001", customerId := 5,
        invoiceDate := ⟨2025, 1, 1⟩, dueDate := ⟨2025, 1, 31⟩, subTotal := 1000,
        vatAmount := 0, totalAmount := 1000, branchId := 1, businessId := 1 }
      { id := 1, billNumber := "BILL-0001", vendorId := 6, totalAmount := 1000,
        branchId := 1, businessId := 1 }
      ⟨2025, 1, 10⟩ 400 9).1 inv1 es1 hr1
    have hpaid1 : inv1.paidAmount = 400 := by rw [h1.1]; norm_num
    have htot1 : inv1.totalAmount = 1000 := by
      have hshape : inv1 =
          { id := 1, invoiceNumber := "INV-0001", customerId := 5,
            invoiceDate := ⟨2025, 1, 1⟩, dueDate := ⟨2025, 1, 31⟩, subTotal := 1000,
            vatAmount := 0, totalAmount := 1000, paidAmount := 0 + 400,
            status := "Partially Paid", branchId := 1, businessId := 1 } := by
        have h := hr1
        simp only [record_payment_for_invoice] at h
        rw [if_neg (by norm_num)] at h
        simp only [Except.ok.injEq, Prod.mk.injEq] at h
        exact h.1.symm
      rw [hshape]
    have hst1 : inv1.status = "Partially Paid" := by
      refine h1.2.2 ?_ ?_
      · rw [hpaid1]; norm_num
      · rw [hpaid1]; norm_num
    obtain ⟨inv2, es2, hr2⟩ :
        ∃ inv2 es2, record_payment_for_invoice (some 3) inv1 ⟨2025, 1, 20⟩ 600 9
          = Except.ok (inv2, es2) := ⟨_, _, rfl⟩
    have h2 := (C5_payment_status 3 4 inv1
      { id := 1, billNumber := "BILL-0001", vendorId := 6, totalAmount := 1000,
        branchId := 1, businessId := 1 }
      ⟨2025, 1, 20⟩ 600 9).1 inv2 es2 hr2
    have hpaid2 : inv2.paidAmount = 1000 := by rw [h2.1, hpaid1]; norm_num
    have hst2 : inv2.status = "Paid" := by
      refine h2.2.1 ?_
      rw [hpaid2, htot1]; norm_num
    exact ⟨inv1, es1, hr1, hpaid1, hst1, inv2, es2, hr2, hpaid2, hst2⟩
  · obtain ⟨b1, es1, hr1⟩ :
        ∃ b1 es1, record_payment_for_bill (some 4)
          { id := 1, billNumber := "BILL-0001", vendorId := 6, totalAmount := 1000,
            branchId := 1, businessId := 1 }
          ⟨2025, 1, 10⟩ 400 9 = Except.ok (b1, es1) :=
      ⟨_, _, rfl⟩
    have h1 := (C5_payment_status 3 4
      { id := 1, invoiceNumber := "INV-0001", customerId := 5,
        invoiceDate := ⟨2025, 1, 1⟩, dueDate := ⟨2025, 1, 31⟩, subTotal := 1000,
        vatAmount := 0, totalAmount := 1000, branchId := 1, businessId := 1 }
      { id := 1, billNumber := "BILL-0001", vendorId := 6, totalAmount := 1000,
        branchId := 1, businessId := 1 }
      ⟨2025, 1, 10⟩ 400 9).2 b1 es1 hr1
    have hpaid1 : b1.paidAmount = 400 := by rw [h1.1]; norm_num
    have hst1 : b1.status = "Partially Paid" := by
      refine h1.2.2 ?_ ?_
      · rw [hpaid1]; norm_num
      · rw [hpaid1]; norm_num
    exact ⟨b1, es1, hr1, hpaid1, hst1⟩

/-- A posting whose reconciled flag is set is never returned by the
unreconciled-transactions query, for any account and branch. -/
theorem reconciled_not_in_unreconciled (es : List LedgerEntry) (x : LedgerEntry)
    (hx : x.isReconciled = true) (acct br : Nat) :
    x ∉ get_unreconciled_transactions es acct br := by
  intro hmem
  rw [get_unreconciled_transactions, List.mem_filter] at hmem
  have h2 := hmem.2
  rw [hx] at h2
  simp at h2

/-- C9: reconciliation is monotonic.  For any already-reconciled posting
and any core operation (a workflow inserting fresh rows, or another
reconciliation batch), the posting survives with its flag still set and
is never returned by the unreconciled-transactions query; moreover that
query only ever returns postings whose flag is false. -/
theorem C9_reconciliation_monotonic (entries : List LedgerEntry) (op : CoreOp)
    (e : LedgerEntry) (he : e ∈ entries) (hrec : e.isReconciled = true) :
    (∃ e2, e2 ∈ applyOp entries op ∧ e2.id = e.id ∧ e2.isReconciled = true ∧
      ∀ acct br, e2 ∉ get_unreconciled_transactions (applyOp entries op) acct br) ∧
    (∀ acct br x, x ∈ get_unreconciled_transactions (applyOp entries op) acct br →
      x.isReconciled = false) := by
  constructor
  · cases op with
    | post newEntries =>
      refine ⟨e, ?_, rfl, hrec, ?_⟩
      · simp only [applyOp, List.mem_append]
        exact Or.inl he
      · intro acct br
        exact reconciled_not_in_unreconciled _ e hrec acct br
    | reconcile reconId clearedIds =>
      have hrec2 : (if clearedIds.contains e.id then
          { e with isReconciled := true, reconciliationId := some reconId }
        else e).isReconciled = true := by
        split
        · rfl
        · exact hrec
      refine ⟨if clearedIds.contains e.id then
          { e with isReconciled := true, reconciliationId := some reconId }
        else e, ?_, ?_, hrec2, ?_⟩
      · simp only [applyOp, process_reconciliation]
        exact List.mem_map_of_mem _ he
      · split <;> rfl
      · intro acct br
        exact reconciled_not_in_unreconciled _ _ hrec2 acct br
  · intro acct br x hx
    rw [get_unreconciled_transactions, List.mem_filter] at hx
    have h2 := hx.2
    cases hxr : x.isReconciled
    · rfl
    · rw [hxr] at h2
      simp at h2

/-- C9 witness: a reconciled posting survives a further reconciliation
batch untouched and stays out of the unreconciled query. -/
theorem C9_reconciliation_monotonic_witness :
    sampleReconciledEntry ∈ [sampleReconciledEntry] ∧
    sampleReconciledEntry.isReconciled = true ∧
    ((∃ e2, e2 ∈ applyOp [sampleReconciledEntry] (CoreOp.reconcile 1 [5]) ∧
      e2.id = sampleReconciledEntry.id ∧
      e2.isReconciled = true ∧
      ∀ acct br, e2 ∉ get_unreconciled_transactions
        (applyOp [sampleReconciledEntry] (CoreOp.reconcile 1 [5])) acct br) ∧
    (∀ acct br x, x ∈ get_unreconciled_transactions
        (applyOp [sampleReconciledEntry] (CoreOp.reconcile 1 [5])) acct br →
      x.isReconciled = false)) :=
  ⟨List.mem_singleton.mpr rfl, rfl,
   C9_reconciliation_monotonic [sampleReconciledEntry] (CoreOp.reconcile 1 [5])
     sampleReconciledEntry (List.mem_singleton.mpr rfl) rfl⟩

/-- C6: the trial balance's debit and credit columns need not agree,
even on a perfectly balanced posting history.  A balanced voucher
(Debit Accounts Payable 100 / Credit Cash 100) gives the liability
account a debit balance, and the report's Liability/Equity/Revenue
branch then emits that balance into BOTH columns (`else balance`), so
the grand totals come out 100 against 200. -/
theorem C6_trial_balance_columns_unequal :
    sumDebit
        [ { txDate := ⟨2025, 1, 15⟩, debit := 100, accountId := 2, branchId := 1 },
          { txDate := ⟨2025, 1, 15⟩, credit := 100, accountId := 1, branchId := 1 } ]
      = sumCredit
        [ { txDate := ⟨2025, 1, 15⟩, debit := 100, accountId := 2, branchId := 1 },
          { txDate := ⟨2025, 1, 15⟩, credit := 100, accountId := 1, branchId := 1 } ] ∧
    (get_trial_balance_data
        [ ⟨1, 1, "Cash", AccountType.asset⟩,
          ⟨2, 1, "Accounts Payable", AccountType.liability⟩ ]
        [ { txDate := ⟨2025, 1, 15⟩, debit := 100, accountId := 2, branchId := 1 },
          { txDate := ⟨2025, 1, 15⟩, credit := 100, accountId := 1, branchId := 1 } ]
        ⟨2025, 1, 31⟩ none).grandTotalDebit = 100 ∧
    (get_trial_balance_data
        [ ⟨1, 1, "Cash", AccountType.asset⟩,
          ⟨2, 1, "Accounts Payable", AccountType.liability⟩ ]
        [ { txDate := ⟨2025, 1, 15⟩, debit := 100, accountId := 2, branchId := 1 },
          { txDate := ⟨2025, 1, 15⟩, credit := 100, accountId := 1, branchId := 1 } ]
        ⟨2025, 1, 31⟩ none).grandTotalCredit = 200 := by
  refine ⟨?_, ?_, ?_⟩
  · norm_num [sumDebit, sumCredit]
  · simp only [get_trial_balance_data, tbStep, List.foldl_cons, List.foldl_nil,
      accountDebitSum, accountCreditSum, sumDebit, sumCredit, upTo, branchOk,
      Date.ble, List.filter_cons, List.filter_nil]
    norm_num [TrialBalanceReport.addLine]
  · simp only [get_trial_balance_data, tbStep, List.foldl_cons, List.foldl_nil,
      accountDebitSum, accountCreditSum, sumDebit, sumCredit, upTo, branchOk,
      Date.ble, List.filter_cons, List.filter_nil]
    norm_num [TrialBalanceReport.addLine]
    rw [if_neg (by decide : ¬(AccountType.liability = AccountType.asset
      ∨ AccountType.liability = AccountType.expense))]
    norm_num

/-- An account whose raw balance is zero is a no-op for the trial
balance loop. -/
theorem tbStep_skip (entries : List LedgerEntry) (asOf : Date) (bf : Option Nat)
    (acc : Account)
    (hbal : accountDebitSum entries acc.id asOf bf
      - accountCreditSum entries acc.id asOf bf = 0)
    (s : TrialBalanceReport) : tbStep entries asOf bf s acc = s := by
  simp only [tbStep]
  rw [if_pos hbal]

/-- An account whose sign-adjusted balance is zero is a no-op for the
balance-sheet loop. -/
theorem bsStep_skip (entries : List LedgerEntry) (asOf : Date) (bf : Option Nat)
    (acc : Account) (hadj : bsAdjustedBalance entries acc asOf bf = 0)
    (st : List (String × ℚ) × ℚ) : bsStep entries asOf bf st acc = st := by
  simp only [bsStep]
  rw [if_neg (fun h => h hadj)]

/-- C10: both reports omit an account whose cumulative debits equal its
cumulative credits as of the report date.  Removing such an account from
the chart changes nothing: the trial balance report is identical, every
per-type section of the balance sheet (lines and total) is identical,
and for Asset/Liability/Equity accounts the entire balance sheet is
identical — the account gets no line and contributes nothing to any
total. -/
theorem C10_zero_balance_accounts_omitted (pre post : List Account) (acc : Account)
    (entries : List LedgerEntry) (asOf : Date) (bf : Option Nat)
    (hzero : accountDebitSum entries acc.id asOf bf
      = accountCreditSum entries acc.id asOf bf) :
    get_trial_balance_data (pre ++ acc :: post) entries asOf bf
      = get_trial_balance_data (pre ++ post) entries asOf bf ∧
    (∀ t, bsTypeData (pre ++ acc :: post) entries asOf bf t
      = bsTypeData (pre ++ post) entries asOf bf t) ∧
    (acc.type = AccountType.asset ∨ acc.type = AccountType.liability ∨
        acc.type = AccountType.equity →
      get_balance_sheet_data (pre ++ acc :: post) entries asOf bf
        = get_balance_sheet_data (pre ++ post) entries asOf bf) := by
  have hbal : accountDebitSum entries acc.id asOf bf
      - accountCreditSum entries acc.id asOf bf = 0 := sub_eq_zero_of_eq hzero
  have hadj : bsAdjustedBalance entries acc asOf bf = 0 := by
    simp only [bsAdjustedBalance]
    split
    · exact hbal
    · exact sub_eq_zero_of_eq hzero.symm
  have htb : get_trial_balance_data (pre ++ acc :: post) entries asOf bf
      = get_trial_balance_data (pre ++ post) entries asOf bf := by
    unfold get_trial_balance_data
    rw [List.foldl_append, List.foldl_append, List.foldl_cons,
      tbStep_skip entries asOf bf acc hbal]
  have hbst : ∀ t, bsTypeData (pre ++ acc :: post) entries asOf bf t
      = bsTypeData (pre ++ post) entries asOf bf t := by
    intro t
    by_cases hpt : acc.type = t
    · unfold bsTypeData
      rw [List.filter_append, List.filter_append, List.filter_cons,
        if_pos (by simp [hpt])]
      rw [List.foldl_append, List.foldl_append, List.foldl_cons,
        bsStep_skip entries asOf bf acc hadj]
    · unfold bsTypeData
      rw [List.filter_append, List.filter_append, List.filter_cons,
        if_neg (by simp [hpt])]
  refine ⟨htb, hbst, ?_⟩
  intro ht
  have hrev : acc.type ≠ AccountType.revenue := by
    rcases ht with h | h | h <;> simp [h]
  have hexp : acc.type ≠ AccountType.expense := by
    rcases ht with h | h | h <;> simp [h]
  have hflt : ∀ t2, acc.type ≠ t2 →
      (pre ++ acc :: post).filter (fun a => a.type = t2)
        = (pre ++ post).filter (fun a => a.type = t2) := by
    intro t2 hne
    rw [List.filter_append, List.filter_append, List.filter_cons,
      if_neg (by simp [hne])]
  have hpnl : get_profit_and_loss_data (pre ++ acc :: post) entries
        (Date.startOfYear asOf) asOf bf
      = get_profit_and_loss_data (pre ++ post) entries
        (Date.startOfYear asOf) asOf bf := by
    unfold get_profit_and_loss_data
    rw [hflt AccountType.revenue hrev, hflt AccountType.expense hexp]
  unfold get_balance_sheet_data
  rw [hpnl, hbst AccountType.asset, hbst AccountType.liability,
    hbst AccountType.equity]

/-- C10 witness: an account carrying two offsetting postings (debit 50
and credit 50) produces no trial-balance line, no balance-sheet line
and no contribution to any total. -/
theorem C10_zero_balance_accounts_omitted_witness :
    accountDebitSum
        [ { txDate := ⟨2025, 1, 5⟩, debit := 50, accountId := 1, branchId := 1 },
          { txDate := ⟨2025, 1, 6⟩, credit := 50, accountId := 1, branchId := 1 } ]
        1 ⟨2025, 1, 31⟩ none
      = accountCreditSum
        [ { txDate := ⟨2025, 1, 5⟩, debit := 50, accountId := 1, branchId := 1 },
          { txDate := ⟨2025, 1, 6⟩, credit := 50, accountId := 1, branchId := 1 } ]
        1 ⟨2025, 1, 31⟩ none ∧
    get_trial_balance_data ([] ++ ⟨1, 1, "Cash", AccountType.asset⟩ :: [])
        [ { txDate := ⟨2025, 1, 5⟩, debit := 50, accountId := 1, branchId := 1 },
          { txDate := ⟨2025, 1, 6⟩, credit := 50, accountId := 1, branchId := 1 } ]
        ⟨2025, 1, 31⟩ none
      = get_trial_balance_data ([] ++ [])
        [ { txDate := ⟨2025, 1, 5⟩, debit := 50, accountId := 1, branchId := 1 },
          { txDate := ⟨2025, 1, 6⟩, credit := 50, accountId := 1, branchId := 1 } ]
        ⟨2025, 1, 31⟩ none := by
  have hd : accountDebitSum
      [ { txDate := ⟨2025, 1, 5⟩, debit := 50, accountId := 1, branchId := 1 },
        { txDate := ⟨2025, 1, 6⟩, credit := 50, accountId := 1, branchId := 1 } ]
      1 ⟨2025, 1, 31⟩ none
      = accountCreditSum
      [ { txDate := ⟨2025, 1, 5⟩, debit := 50, accountId := 1, branchId := 1 },
        { txDate := ⟨2025, 1, 6⟩, credit := 50, accountId := 1, branchId := 1 } ]
      1 ⟨2025, 1, 31⟩ none := by
    simp only [accountDebitSum, accountCreditSum, sumDebit, sumCredit, upTo,
      branchOk, Date.ble, List.filter_cons, List.filter_nil]
    norm_num
  exact ⟨hd,
    (C10_zero_balance_accounts_omitted [] [] ⟨1, 1, "Cash", AccountType.asset⟩
      [ { txDate := ⟨2025, 1, 5⟩, debit := 50, accountId := 1, branchId := 1 },
        { txDate := ⟨2025, 1, 6⟩, credit := 50, accountId := 1, branchId := 1 } ]
      ⟨2025, 1, 31⟩ none hd).1⟩

/-- When every line resolves to an in-branch product with sufficient
stock, the stock-validation loop succeeds and returns the summed
`purchase_price × quantity` cost. -/
theorem computeTotalCost_ok (products : List Product) (branchId : Nat)
    (items : List InvoiceItem)
    (h : ∀ i ∈ items, ∃ p, products.find? (fun p => p.id == i.productId) = some p ∧
      p.branchId = branchId ∧ i.quantity ≤ p.stockQuantity) :
    computeTotalCost products branchId items
      = Except.ok ((items.map (productCost products)).sum) := by
  induction items with
  | nil => simp [computeTotalCost]
  | cons i rest ih =>
    obtain ⟨p, hfind, hbr, hstock⟩ := h i (List.mem_cons_self i rest)
    rw [computeTotalCost, hfind]
    dsimp only
    rw [if_neg (by simp [hbr]), if_neg (not_lt.mpr hstock),
      ih (fun j hj => h j (List.mem_cons_of_mem i hj))]
    dsimp only
    simp [productCost, hfind]

/-- When every line resolves to an in-branch product but some line's
quantity exceeds that product's stock, the stock-validation loop fails
with the insufficient-stock error for some product. -/
theorem computeTotalCost_insufficient (products : List Product) (branchId : Nat)
    (items : List InvoiceItem)
    (hres : ∀ i ∈ items, ∃ p, products.find? (fun p => p.id == i.productId) = some p ∧
      p.branchId = branchId)
    (hbad : ∃ i ∈ items, ∃ p, products.find? (fun p => p.id == i.productId) = some p ∧
      p.stockQuantity < i.quantity) :
    ∃ n, computeTotalCost products branchId items
      = Except.error ("Insufficient stock for " ++ n) := by
  induction items with
  | nil =>
    rcases hbad with ⟨i, hi, _⟩
    cases hi
  | cons i rest ih =>
    obtain ⟨p, hfind, hbr⟩ := hres i (List.mem_cons_self i rest)
    by_cases hlt : p.stockQuantity < i.quantity
    · refine ⟨p.name, ?_⟩
      rw [computeTotalCost, hfind]
      dsimp only
      rw [if_neg (by simp [hbr]), if_pos hlt]
    · rcases hbad with ⟨j, hj, q, hfq, hq⟩
      rcases List.mem_cons.mp hj with rfl | hjrest
      · rw [hfind] at hfq
        cases hfq
        exact absurd hq hlt
      · obtain ⟨n, hn⟩ := ih (fun k hk => hres k (List.mem_cons_of_mem i hk))
          ⟨j, hjrest, q, hfq, hq⟩
        refine ⟨n, ?_⟩
        rw [computeTotalCost, hfind]
        dsimp only
        rw [if_neg (by simp [hbr]), if_neg hlt, hn]

/-- C4: creating a sales invoice for a VAT-registered tenant.  When
every line resolves to an in-branch product with sufficient stock (and
the VAT amount is positive), the workflow returns the invoice with
`subTotal = Σ(qty×price)`, `vat = subTotal × rate`, `total = subTotal +
vat`, posts Debit AR(total) / Credit Revenue(subTotal) / Credit VAT
Payable(vat) / Debit COGS(cost) / Credit Inventory(cost) with `cost =
Σ(qty×purchasePrice)`, and decrements each product's stock by the sold
quantity.  When some line's quantity exceeds its product's stock, it
fails with the insufficient-stock error and creates nothing. -/
theorem C4_sales_invoice (b : Business) (cust : Customer)
    (arId revId cogsId invId vatId : Nat) (products : List Product)
    (invoiceId : Nat) (invoiceNumber : String) (businessId branchId : Nat)
    (invoiceDate dueDate : Date) (items : List InvoiceItem)
    (hvat : b.isVatRegistered = true) (hbr : cust.branchId = branchId) :
    ((∀ i ∈ items, ∃ p, products.find? (fun p => p.id == i.productId) = some p ∧
        p.branchId = branchId ∧ i.quantity ≤ p.stockQuantity) →
      0 < (items.map (fun i => i.quantity * i.price)).sum * b.vatRate →
      create_sales_invoice (some b) (some cust) (some arId) (some revId)
          (some cogsId) (some invId) (some vatId) products invoiceId invoiceNumber
          businessId branchId invoiceDate dueDate items
        = Except.ok
          ({ id := invoiceId, invoiceNumber := invoiceNumber, customerId := cust.id,
             invoiceDate := invoiceDate, dueDate := dueDate,
             subTotal := (items.map (fun i => i.quantity * i.price)).sum,
             vatAmount := (items.map (fun i => i.quantity * i.price)).sum * b.vatRate,
             totalAmount := (items.map (fun i => i.quantity * i.price)).sum
               + (items.map (fun i => i.quantity * i.price)).sum * b.vatRate,
             branchId := branchId, businessId := businessId },
           [ { accountId := arId, txDate := invoiceDate,
               debit := (items.map (fun i => i.quantity * i.price)).sum
                 + (items.map (fun i => i.quantity * i.price)).sum * b.vatRate,
               description := "Sale on Invoice #" ++ invoiceNumber,
               customerId := some cust.id, salesInvoiceId := some invoiceId,
               branchId := branchId },
             { accountId := revId, txDate := invoiceDate,
               credit := (items.map (fun i => i.quantity * i.price)).sum,
               description := "Sale on Invoice #" ++ invoiceNumber,
               customerId := some cust.id, salesInvoiceId := some invoiceId,
               branchId := branchId },
             { accountId := vatId, txDate := invoiceDate,
               credit := (items.map (fun i => i.quantity * i.price)).sum * b.vatRate,
               description := "Sale on Invoice #" ++ invoiceNumber,
               customerId := some cust.id, salesInvoiceId := some invoiceId,
               branchId := branchId },
             { accountId := cogsId, txDate := invoiceDate,
               debit := (items.map (productCost products)).sum,
               description := "COGS for Invoice #" ++ invoiceNumber,
               customerId := some cust.id, salesInvoiceId := some invoiceId,
               branchId := branchId },
             { accountId := invId, txDate := invoiceDate,
               credit := (items.map (productCost products)).sum,
               description := "COGS for Invoice #" ++ invoiceNumber,
               customerId := some cust.id, salesInvoiceId := some invoiceId,
               branchId := branchId } ],
           decrementStocks products items)) ∧
    ((∀ i ∈ items, ∃ p, products.find? (fun p => p.id == i.productId) = some p ∧
        p.branchId = branchId) →
      (∃ i ∈ items, ∃ p, products.find? (fun p => p.id == i.productId) = some p ∧
        p.stockQuantity < i.quantity) →
      ∃ n, create_sales_invoice (some b) (some cust) (some arId) (some revId)
          (some cogsId) (some invId) (some vatId) products invoiceId invoiceNumber
          businessId branchId invoiceDate dueDate items
        = Except.error ("Insufficient stock for " ++ n)) := by
  constructor
  · intro hstock hvpos
    simp only [create_sales_invoice, hvat, hbr,
      computeTotalCost_ok products branchId items hstock]
    rw [if_neg (by simp), if_neg (by simp)]
    simp [hvpos]
  · intro hres hbad
    obtain ⟨n, hn⟩ := computeTotalCost_insufficient products branchId items hres hbad
    refine ⟨n, ?_⟩
    simp only [create_sales_invoice, hvat, hbr, hn]
    rw [if_neg (by simp), if_neg (by simp)]

/-- C4 witness: the claim's scenario — 10 units at price 100 for a
VAT-registered tenant at rate 10%, purchase price 60, 20 in stock —
yields AR debit 1100, Revenue credit 1000, VAT Payable credit 100, COGS
debit 600, Inventory credit 600, and the stock drops from 20 to 10. -/
theorem C4_sales_invoice_witness :
    sampleBusiness.isVatRegistered = true ∧
    sampleCustomer.branchId = 1 ∧
    (∀ i ∈ sampleItems, ∃ p,
      [sampleProduct].find? (fun p => p.id == i.productId) = some p ∧
      p.branchId = 1 ∧ i.quantity ≤ p.stockQuantity) ∧
    0 < (sampleItems.map (fun i => i.quantity * i.price)).sum * sampleBusiness.vatRate ∧
    create_sales_invoice (some sampleBusiness) (some sampleCustomer) (some 1) (some 2)
        (some 3) (some 4) (some 5) [sampleProduct] 1 "INV-0001" 1 1
        ⟨2025, 2, 1⟩ ⟨2025, 2, 28⟩ sampleItems
      = Except.ok
        ({ id := 1, invoiceNumber := "INV-0001", customerId := 5,
           invoiceDate := ⟨2025, 2, 1⟩, dueDate := ⟨2025, 2, 28⟩,
           subTotal := 1000, vatAmount := 100, totalAmount := 1100,
           branchId := 1, businessId := 1 },
         [ { accountId := 1, txDate := ⟨2025, 2, 1⟩, debit := 1100,
             description := "Sale on Invoice #" ++ "INV-0001",
             customerId := some 5, salesInvoiceId := some 1, branchId := 1 },
           { accountId := 2, txDate := ⟨2025, 2, 1⟩, credit := 1000,
             description := "Sale on Invoice #" ++ "INV-0001",
             customerId := some 5, salesInvoiceId := some 1, branchId := 1 },
           { accountId := 5, txDate := ⟨2025, 2, 1⟩, credit := 100,
             description := "Sale on Invoice #" ++ "INV-0001",
             customerId := some 5, salesInvoiceId := some 1, branchId := 1 },
           { accountId := 3, txDate := ⟨2025, 2, 1⟩, debit := 600,
             description := "COGS for Invoice #" ++ "INV-0001",
             customerId := some 5, salesInvoiceId := some 1, branchId := 1 },
           { accountId := 4, txDate := ⟨2025, 2, 1⟩, credit := 600,
             description := "COGS for Invoice #" ++ "INV-0001",
             customerId := some 5, salesInvoiceId := some 1, branchId := 1 } ],
         [ ⟨100, 1, "Widget", 60, 10⟩ ]) := by
  have hstock : ∀ i ∈ sampleItems, ∃ p,
      [sampleProduct].find? (fun p => p.id == i.productId) = some p ∧
      p.branchId = 1 ∧ i.quantity ≤ p.stockQuantity := by
    intro i hi
    have hi2 : i = (⟨100, 10, 100⟩ : InvoiceItem) := by
      simpa [sampleItems] using hi
    subst hi2
    refine ⟨sampleProduct, ?_, rfl, by norm_num [sampleProduct]⟩
    simp [sampleProduct, List.find?]
  have hvpos : 0 < (sampleItems.map (fun i => i.quantity * i.price)).sum
      * sampleBusiness.vatRate := by
    norm_num [sampleItems, sampleBusiness]
  have h := (C4_sales_invoice sampleBusiness sampleCustomer 1 2 3 4 5 [sampleProduct]
    1 "INV-0001" 1 1 ⟨2025, 2, 1⟩ ⟨2025, 2, 28⟩ sampleItems rfl rfl).1 hstock hvpos
  refine ⟨rfl, rfl, hstock, hvpos, ?_⟩
  rw [h]
  simp only [Except.ok.injEq, Prod.mk.injEq, SalesInvoice.mk.injEq, List.cons.injEq,
    LedgerEntry.mk.injEq, Product.mk.injEq, decrementStocks, List.foldl_cons,
    List.foldl_nil, List.map_cons, List.map_nil]
  norm_num [sampleItems, sampleBusiness, sampleProduct, sampleCustomer, productCost,
    List.find?]

/-! Lemmas for the balance-sheet equation: collapsing the per-type
account walks into sums of raw balances and back to the posting
history. -/

theorem rawBalance_eq (entries : List LedgerEntry) (acc : Account) (asOf : Date)
    (bf : Option Nat) :
    rawBalance entries acc asOf bf
      = ((entries.filter (fun e => e.accountId == acc.id && upTo asOf e
          && branchOk bf e)).map (fun e => e.debit - e.credit)).sum := by
  rw [rawBalance, accountDebitSum, accountCreditSum, sumDebit, sumCredit, sum_map_sub]

theorem rawBalance_eq2 (entries : List LedgerEntry) (acc : Account) (asOf : Date)
    (bf : Option Nat) :
    rawBalance entries acc asOf bf
      = ((entries.filter (fun e => e.accountId == acc.id
          && (upTo asOf e && branchOk bf e))).map (fun e => e.debit - e.credit)).sum := by
  rw [rawBalance_eq]
  have hf : entries.filter (fun e => e.accountId == acc.id && upTo asOf e
        && branchOk bf e)
      = entries.filter (fun e => e.accountId == acc.id
        && (upTo asOf e && branchOk bf e)) :=
    List.filter_congr (fun e _ => by rw [Bool.and_assoc])
  rw [hf]

/-- Splitting the chart of accounts into its five type groups preserves
any summed account statistic. -/
theorem five_type_split (accs : List Account) (g : Account → ℚ) :
    ((accs.filter (fun a => a.type = AccountType.asset)).map g).sum
      + ((accs.filter (fun a => a.type = AccountType.liability)).map g).sum
      + ((accs.filter (fun a => a.type = AccountType.equity)).map g).sum
      + ((accs.filter (fun a => a.type = AccountType.revenue)).map g).sum
      + ((accs.filter (fun a => a.type = AccountType.expense)).map g).sum
      = (accs.map g).sum := by
  induction accs with
  | nil => simp
  | cons a t ih =>
    cases htype : a.type <;>
      · simp only [List.filter_cons, htype, decide_eq_true_eq, reduceCtorEq, if_true,
          if_false, ite_true, ite_false, List.map_cons, List.sum_cons]
        rw [← ih]
        ring

/-- Summing a statistic account-by-account over a duplicate-free chart
equals summing it over the postings that hit any of those accounts. -/
theorem per_account_sum (accs : List Account) (es : List LedgerEntry)
    (P : LedgerEntry → Bool) (F : LedgerEntry → ℚ)
    (hnd : (accs.map Account.id).Nodup) :
    (accs.map (fun a =>
        ((es.filter (fun e => e.accountId == a.id && P e)).map F).sum)).sum
      = ((es.filter (fun e => P e
          && decide (e.accountId ∈ accs.map Account.id))).map F).sum := by
  induction accs with
  | nil => simp
  | cons a t ih =>
    have hna : a.id ∉ t.map Account.id := (List.nodup_cons.mp hnd).1
    have hnd2 : (t.map Account.id).Nodup := (List.nodup_cons.mp hnd).2
    rw [List.map_cons, List.sum_cons, ih hnd2]
    rw [sum_filter_indicator, sum_filter_indicator, sum_filter_indicator]
    have hfun : ∀ e : LedgerEntry,
        (if e.accountId == a.id && P e then F e else 0)
          + (if P e && decide (e.accountId ∈ t.map Account.id) then F e else 0)
        = (if P e && decide (e.accountId ∈ (a :: t).map Account.id) then F e
            else 0) := by
      intro e
      by_cases hP : P e = true
      · by_cases hid : e.accountId = a.id
        · have h2 : e.accountId ∉ t.map Account.id := by rw [hid]; exact hna
          have hc1 : (e.accountId == a.id && P e) = true := by
            rw [hP]
            simp [hid]
          have hc2 : (P e && decide (e.accountId ∈ t.map Account.id)) = false := by
            rw [decide_eq_false h2, Bool.and_false]
          have hc3 : (P e && decide (e.accountId ∈ (a :: t).map Account.id)) = true := by
            rw [hP]
            simp [List.mem_cons, hid]
          rw [if_pos hc1, if_neg (by rw [hc2]; exact Bool.false_ne_true), if_pos hc3,
            add_zero]
        · have hc1 : (e.accountId == a.id && P e) = false := by
            simp [hid]
          have hmem : decide (e.accountId ∈ (a :: t).map Account.id)
              = decide (e.accountId ∈ t.map Account.id) := by
            simp [List.mem_cons, hid]
          rw [if_neg (by rw [hc1]; exact Bool.false_ne_true), hmem, zero_add]
      · have hP2 : P e = false := eq_false_of_ne_true hP
        simp [hP2]
    rw [← sum_map_add]
    exact congrArg (fun f => (es.map f).sum) (funext hfun)

/-- When every posting hits an account of the chart, the membership
restriction is vacuous. -/
theorem filter_covered (es : List LedgerEntry) (P : LedgerEntry → Bool)
    (ids : List Nat) (hcov : ∀ e ∈ es, e.accountId ∈ ids) :
    es.filter (fun e => P e && decide (e.accountId ∈ ids)) = es.filter P := by
  apply List.filter_congr
  intro e he
  simp [hcov e he]

/-- The running total of the balance-sheet account walk is the plain sum
of the adjusted balances: skipping zero balances changes nothing. -/
theorem bsStep_foldl_total (entries : List LedgerEntry) (asOf : Date)
    (bf : Option Nat) :
    ∀ (l : List Account) (st : List (String × ℚ) × ℚ),
      (l.foldl (bsStep entries asOf bf) st).2
        = st.2 + (l.map (fun a => bsAdjustedBalance entries a asOf bf)).sum := by
  intro l
  induction l with
  | nil => intro st; simp
  | cons a t ih =>
    intro st
    rw [List.foldl_cons, ih]
    by_cases hz : bsAdjustedBalance entries a asOf bf = 0
    · rw [bsStep_skip entries asOf bf a hz st]
      rw [List.map_cons, List.sum_cons, hz]
      ring
    · simp only [bsStep]
      rw [if_pos hz]
      rw [List.map_cons, List.sum_cons]
      dsimp only
      ring

theorem bsTypeData_total (accounts : List Account) (entries : List LedgerEntry)
    (asOf : Date) (bf : Option Nat) (t : AccountType) :
    (bsTypeData accounts entries asOf bf t).2
      = ((accounts.filter (fun a => a.type = t)).map
          (fun a => bsAdjustedBalance entries a asOf bf)).sum := by
  rw [bsTypeData, bsStep_foldl_total]
  norm_num

theorem bsAdjustedBalance_cases (entries : List LedgerEntry) (a : Account)
    (asOf : Date) (bf : Option Nat) :
    bsAdjustedBalance entries a asOf bf
      = (if a.type = AccountType.asset ∨ a.type = AccountType.expense
          then rawBalance entries a asOf bf
          else -(rawBalance entries a asOf bf)) := by
  rw [bsAdjustedBalance, rawBalance]
  split
  · rfl
  · ring

/-- The COGS pop plus the remaining operating expenses reassemble the
full expense total. -/
theorem cogs_split (l : List (String × ℚ)) :
    ((l.filter (fun p => p.1 == "Cost of Goods Sold")).map (fun p => p.2)).sum
      + ((l.filter (fun p => p.1 != "Cost of Goods Sold")).map (fun p => p.2)).sum
      = (l.map (fun p => p.2)).sum := by
  induction l with
  | nil => simp
  | cons a t ih =>
    by_cases h : (a.1 == "Cost of Goods Sold") = true
    · have hb : (a.1 != "Cost of Goods Sold") = false := by simp [bne, h]
      rw [List.filter_cons, List.filter_cons, if_pos h, if_neg (by simp [hb]),
        List.map_cons, List.sum_cons, List.map_cons, List.sum_cons, ← ih]
      ring
    · have h2 : (a.1 == "Cost of Goods Sold") = false := eq_false_of_ne_true h
      have hb : (a.1 != "Cost of Goods Sold") = true := by simp [bne, h2]
      rw [List.filter_cons, List.filter_cons, if_neg (by simp [h2]), if_pos hb,
        List.map_cons, List.sum_cons, List.map_cons, List.sum_cons, ← ih]
      ring

theorem pl_netProfit (accounts : List Account) (entries : List LedgerEntry)
    (startD endD : Date) (bf : Option Nat) :
    (get_profit_and_loss_data accounts entries startD endD bf).netProfit
      = ((accounts.filter (fun a => a.type = AccountType.revenue)).map
          (fun a => plAccountBalance entries a startD endD bf)).sum
        - ((accounts.filter (fun a => a.type = AccountType.expense)).map
          (fun a => plAccountBalance entries a startD endD bf)).sum := by
  rw [get_profit_and_loss_data]
  dsimp only
  have hcomp : ((fun p : String × ℚ => p.2) ∘
      (fun a => (a.name, plAccountBalance entries a startD endD bf)))
      = (fun a => plAccountBalance entries a startD endD bf) := rfl
  have hsplit := cogs_split ((accounts.filter (fun a => a.type = AccountType.expense)).map
    (fun a => (a.name, plAccountBalance entries a startD endD bf)))
  rw [List.map_map, hcomp] at hsplit
  rw [List.map_map, hcomp]
  linarith [hsplit]

/-- When every posting of one revenue/expense account that falls inside
the balance-sheet cutoff also falls inside the as-of year, the P&L
range-filtered balance coincides (up to the normal-balance sign) with
the raw balance up to the cutoff. -/
theorem plAccountBalance_eq_raw (entries : List LedgerEntry) (a : Account)
    (asOf : Date) (bf : Option Nat)
    (hy : ∀ e ∈ entries, e.accountId = a.id → upTo asOf e = true →
      branchOk bf e = true → Date.ble (Date.startOfYear asOf) e.txDate = true) :
    plAccountBalance entries a (Date.startOfYear asOf) asOf bf
      = (if a.type = AccountType.revenue then -(rawBalance entries a asOf bf)
          else rawBalance entries a asOf bf) := by
  have hfe : entries.filter (fun e => e.accountId == a.id
        && inRange (Date.startOfYear asOf) asOf e && branchOk bf e)
      = entries.filter (fun e => e.accountId == a.id && upTo asOf e
        && branchOk bf e) := by
    apply List.filter_congr
    intro e he
    by_cases h1 : e.accountId = a.id
    · by_cases h3 : branchOk bf e = true
      · by_cases h2 : upTo asOf e = true
        · have h4 := hy e he h1 h2 h3
          have h2b : Date.ble e.txDate asOf = true := h2
          simp [inRange, upTo, h4, h2b, h3]
        · have h2b : Date.ble e.txDate asOf = false := eq_false_of_ne_true h2
          simp [inRange, upTo, h2b]
      · have h3b : branchOk bf e = false := eq_false_of_ne_true h3
        simp [h3b]
    · have h1b : (e.accountId == a.id) = false := by simp [h1]
      simp [h1b]
  simp only [plAccountBalance]
  rw [hfe, rawBalance_eq]
  by_cases hrev : a.type = AccountType.revenue
  · rw [if_pos hrev, if_pos hrev, ← sum_map_neg]
    have hfun : (fun e : LedgerEntry => e.credit - e.debit)
        = (fun e : LedgerEntry => -(e.debit - e.credit)) :=
      funext (fun e => by ring)
    rw [hfun]
  · rw [if_neg hrev, if_neg hrev]

/-- C7 (amended): the balance-sheet equation `totalAssets =
totalLiabilities + totalEquity` holds whenever (1) the chart has
duplicate-free account ids, (2) every posting references a chart
account, (3) the posting history filtered to the cutoff (and branch)
balances in total, and (4) every revenue/expense posting inside the
cutoff is dated on or after January 1 of the as-of year — i.e. no
prior-year P&L activity escapes the synthetic "Retained Earnings
(Current Period)" line. -/
theorem C7_balance_sheet_equation (accounts : List Account)
    (entries : List LedgerEntry) (asOf : Date) (bf : Option Nat)
    (hnd : (accounts.map Account.id).Nodup)
    (hcov : ∀ e ∈ entries, e.accountId ∈ accounts.map Account.id)
    (hbal : sumDebit (entries.filter (fun e => upTo asOf e && branchOk bf e))
      = sumCredit (entries.filter (fun e => upTo asOf e && branchOk bf e)))
    (hyear : ∀ e ∈ entries, ∀ a ∈ accounts, e.accountId = a.id →
      (a.type = AccountType.revenue ∨ a.type = AccountType.expense) →
      upTo asOf e = true → branchOk bf e = true →
      Date.ble (Date.startOfYear asOf) e.txDate = true) :
    (get_balance_sheet_data accounts entries asOf bf).totalAssets
      = (get_balance_sheet_data accounts entries asOf bf).totalLiabilities
        + (get_balance_sheet_data accounts entries asOf bf).totalEquity := by
  rw [get_balance_sheet_data]
  dsimp only
  rw [bsTypeData_total, bsTypeData_total, bsTypeData_total, pl_netProfit]
  have hA : ((accounts.filter (fun a => a.type = AccountType.asset)).map
      (fun a => bsAdjustedBalance entries a asOf bf)).sum
      = ((accounts.filter (fun a => a.type = AccountType.asset)).map
          (fun a => rawBalance entries a asOf bf)).sum := by
    apply congrArg List.sum
    apply List.map_congr_left
    intro a ha
    have hat : a.type = AccountType.asset := by
      simpa using (List.mem_filter.mp ha).2
    rw [bsAdjustedBalance_cases, if_pos (Or.inl hat)]
  have hL : ((accounts.filter (fun a => a.type = AccountType.liability)).map
      (fun a => bsAdjustedBalance entries a asOf bf)).sum
      = -(((accounts.filter (fun a => a.type = AccountType.liability)).map
          (fun a => rawBalance entries a asOf bf)).sum) := by
    rw [← sum_map_neg]
    apply congrArg List.sum
    apply List.map_congr_left
    intro a ha
    have hat : a.type = AccountType.liability := by
      simpa using (List.mem_filter.mp ha).2
    rw [bsAdjustedBalance_cases, if_neg (by simp [hat])]
  have hE : ((accounts.filter (fun a => a.type = AccountType.equity)).map
      (fun a => bsAdjustedBalance entries a asOf bf)).sum
      = -(((accounts.filter (fun a => a.type = AccountType.equity)).map
          (fun a => rawBalance entries a asOf bf)).sum) := by
    rw [← sum_map_neg]
    apply congrArg List.sum
    apply List.map_congr_left
    intro a ha
    have hat : a.type = AccountType.equity := by
      simpa using (List.mem_filter.mp ha).2
    rw [bsAdjustedBalance_cases, if_neg (by simp [hat])]
  have hR : ((accounts.filter (fun a => a.type = AccountType.revenue)).map
      (fun a => plAccountBalance entries a (Date.startOfYear asOf) asOf bf)).sum
      = -(((accounts.filter (fun a => a.type = AccountType.revenue)).map
          (fun a => rawBalance entries a asOf bf)).sum) := by
    rw [← sum_map_neg]
    apply congrArg List.sum
    apply List.map_congr_left
    intro a ha
    have hat : a.type = AccountType.revenue := by
      simpa using (List.mem_filter.mp ha).2
    have hamem : a ∈ accounts := (List.mem_filter.mp ha).1
    rw [plAccountBalance_eq_raw entries a asOf bf
      (fun e he h1 h2 h3 => hyear e he a hamem h1 (Or.inl hat) h2 h3)]
    rw [if_pos hat]
  have hX : ((accounts.filter (fun a => a.type = AccountType.expense)).map
      (fun a => plAccountBalance entries a (Date.startOfYear asOf) asOf bf)).sum
      = ((accounts.filter (fun a => a.type = AccountType.expense)).map
          (fun a => rawBalance entries a asOf bf)).sum := by
    apply congrArg List.sum
    apply List.map_congr_left
    intro a ha
    have hat : a.type = AccountType.expense := by
      simpa using (List.mem_filter.mp ha).2
    have hamem : a ∈ accounts := (List.mem_filter.mp ha).1
    rw [plAccountBalance_eq_raw entries a asOf bf
      (fun e he h1 h2 h3 => hyear e he a hamem h1 (Or.inr hat) h2 h3)]
    rw [if_neg (by simp [hat])]
  rw [hA, hL, hE, hR, hX]
  have hzero : ((accounts.filter (fun a => a.type = AccountType.asset)).map
        (fun a => rawBalance entries a asOf bf)).sum
      + ((accounts.filter (fun a => a.type = AccountType.liability)).map
        (fun a => rawBalance entries a asOf bf)).sum
      + ((accounts.filter (fun a => a.type = AccountType.equity)).map
        (fun a => rawBalance entries a asOf bf)).sum
      + ((accounts.filter (fun a => a.type = AccountType.revenue)).map
        (fun a => rawBalance entries a asOf bf)).sum
      + ((accounts.filter (fun a => a.type = AccountType.expense)).map
        (fun a => rawBalance entries a asOf bf)).sum = 0 := by
    rw [five_type_split]
    have h1 : (accounts.map (fun a => rawBalance entries a asOf bf)).sum
        = ((entries.filter (fun e => (upTo asOf e && branchOk bf e)
            && decide (e.accountId ∈ accounts.map Account.id))).map
            (fun e => e.debit - e.credit)).sum := by
      rw [List.map_congr_left (fun a _ => rawBalance_eq2 entries a asOf bf)]
      exact per_account_sum accounts entries
        (fun e => upTo asOf e && branchOk bf e) (fun e => e.debit - e.credit) hnd
    rw [h1, filter_covered entries _ _ hcov, sum_map_sub]
    exact sub_eq_zero_of_eq hbal
  linarith [hzero]

/-- C7 counterexample: a balanced posting group dated in a PRIOR year
(Debit Accounts Receivable 100 / Credit Sales Revenue 100 on
2024-06-01) breaks the balance-sheet equation as of 2025-01-31: the
asset side shows 100, but the synthetic retained-earnings line re-runs
the P&L only from 2025-01-01, so liabilities + equity total 0. -/
theorem C7_balance_sheet_counterexample :
    sumDebit
        [ { txDate := ⟨2024, 6, 1⟩, debit := 100, accountId := 1, branchId := 1 },
          { txDate := ⟨2024, 6, 1⟩, credit := 100, accountId := 2, branchId := 1 } ]
      = sumCredit
        [ { txDate := ⟨2024, 6, 1⟩, debit := 100, accountId := 1, branchId := 1 },
          { txDate := ⟨2024, 6, 1⟩, credit := 100, accountId := 2, branchId := 1 } ] ∧
    (get_balance_sheet_data
        [ ⟨1, 1, "Accounts Receivable", AccountType.asset⟩,
          ⟨2, 1, "Sales Revenue", AccountType.revenue⟩ ]
        [ { txDate := ⟨2024, 6, 1⟩, debit := 100, accountId := 1, branchId := 1 },
          { txDate := ⟨2024, 6, 1⟩, credit := 100, accountId := 2, branchId := 1 } ]
        ⟨2025, 1, 31⟩ none).totalAssets = 100 ∧
    (get_balance_sheet_data
        [ ⟨1, 1, "Accounts Receivable", AccountType.asset⟩,
          ⟨2, 1, "Sales Revenue", AccountType.revenue⟩ ]
        [ { txDate := ⟨2024, 6, 1⟩, debit := 100, accountId := 1, branchId := 1 },
          { txDate := ⟨2024, 6, 1⟩, credit := 100, accountId := 2, branchId := 1 } ]
        ⟨2025, 1, 31⟩ none).totalLiabilities
      + (get_balance_sheet_data
        [ ⟨1, 1, "Accounts Receivable", AccountType.asset⟩,
          ⟨2, 1, "Sales Revenue", AccountType.revenue⟩ ]
        [ { txDate := ⟨2024, 6, 1⟩, debit := 100, accountId := 1, branchId := 1 },
          { txDate := ⟨2024, 6, 1⟩, credit := 100, accountId := 2, branchId := 1 } ]
        ⟨2025, 1, 31⟩ none).totalEquity = 0 := by
  refine ⟨by norm_num [sumDebit, sumCredit], ?_, ?_⟩ <;>
  · simp +decide only [get_balance_sheet_data, get_profit_and_loss_data,
      plAccountBalance, bsTypeData, bsStep, bsAdjustedBalance, accountDebitSum,
      accountCreditSum, sumDebit, sumCredit, upTo, inRange, branchOk, Date.ble,
      Date.startOfYear, List.filter_cons, List.filter_nil, List.foldl_cons,
      List.foldl_nil, List.map_cons, List.map_nil]
    norm_num [bsStep, bsAdjustedBalance, accountDebitSum, accountCreditSum,
      sumDebit, sumCredit, upTo, branchOk, Date.ble, List.filter_cons,
      List.filter_nil]

/-- C7 witness: for an in-year balanced posting pair (Debit AR 100 /
Credit Revenue 100 on 2025-01-10), all four side conditions hold and
the balance sheet as of 2025-01-31 balances. -/
theorem C7_balance_sheet_equation_witness :
    (sampleBSAccounts.map Account.id).Nodup ∧
    (∀ e ∈ sampleBSEntries, e.accountId ∈ sampleBSAccounts.map Account.id) ∧
    sumDebit (sampleBSEntries.filter
        (fun e => upTo ⟨2025, 1, 31⟩ e && branchOk none e))
      = sumCredit (sampleBSEntries.filter
        (fun e => upTo ⟨2025, 1, 31⟩ e && branchOk none e)) ∧
    (∀ e ∈ sampleBSEntries, ∀ a ∈ sampleBSAccounts, e.accountId = a.id →
      (a.type = AccountType.revenue ∨ a.type = AccountType.expense) →
      upTo ⟨2025, 1, 31⟩ e = true → branchOk none e = true →
      Date.ble (Date.startOfYear ⟨2025, 1, 31⟩) e.txDate = true) ∧
    (get_balance_sheet_data sampleBSAccounts sampleBSEntries
        ⟨2025, 1, 31⟩ none).totalAssets
      = (get_balance_sheet_data sampleBSAccounts sampleBSEntries
          ⟨2025, 1, 31⟩ none).totalLiabilities
        + (get_balance_sheet_data sampleBSAccounts sampleBSEntries
          ⟨2025, 1, 31⟩ none).totalEquity := by
  have h1 : (sampleBSAccounts.map Account.id).Nodup := by
    simp [sampleBSAccounts]
  have h2 : ∀ e ∈ sampleBSEntries, e.accountId ∈ sampleBSAccounts.map Account.id := by
    intro e he
    rcases List.mem_cons.mp he with rfl | he2
    · simp [sampleBSAccounts]
    · rcases List.mem_cons.mp he2 with rfl | he3
      · simp [sampleBSAccounts]
      · cases he3
  have h3 : sumDebit (sampleBSEntries.filter
        (fun e => upTo ⟨2025, 1, 31⟩ e && branchOk none e))
      = sumCredit (sampleBSEntries.filter
        (fun e => upTo ⟨2025, 1, 31⟩ e && branchOk none e)) := by
    norm_num [sampleBSEntries, sumDebit, sumCredit, upTo, branchOk, Date.ble,
      List.filter_cons, List.filter_nil]
  have h4 : ∀ e ∈ sampleBSEntries, ∀ a ∈ sampleBSAccounts, e.accountId = a.id →
      (a.type = AccountType.revenue ∨ a.type = AccountType.expense) →
      upTo ⟨2025, 1, 31⟩ e = true → branchOk none e = true →
      Date.ble (Date.startOfYear ⟨2025, 1, 31⟩) e.txDate = true := by
    intro e he a _ _ _ _ _
    rcases List.mem_cons.mp he with rfl | he2
    · decide
    · rcases List.mem_cons.mp he2 with rfl | he3
      · decide
      · cases he3
  exact ⟨h1, h2, h3, h4, C7_balance_sheet_equation sampleBSAccounts sampleBSEntries
    ⟨2025, 1, 31⟩ none h1 h2 h3 h4⟩

end Booklet
